import Mathlib

/-!
Shallow embedding of the crypto-guardian transaction-risk pipeline
(packages/api/src/services/txSimulator.ts, txSignals.ts, txRiskEngine.ts).

Strings are modelled as `List Char`.  JavaScript string primitives used by
the source (`slice`, `startsWith`, `toLowerCase`, `length`) are embedded as
the list operations below.  JavaScript `BigInt`/`parseInt` parsing is
embedded exactly over the inputs the pipeline feeds them (hex and decimal
digit strings); where the source would throw (`BigInt` of a malformed
string) the embedding returns `none`, matching the `try/catch` wrappers in
the source.
-/

set_option maxRecDepth 40000

set_option maxHeartbeats 2000000

namespace CryptoGuardian

/-- JavaScript `s.slice(a, b)` for `0 ≤ a ≤ b` (the only form the pipeline
uses): characters from index `a` (inclusive) to `b` (exclusive). -/
def jsSlice (s : List Char) (a b : Nat) : List Char :=
  (s.drop a).take (b - a)

/-- ASCII lower-casing of one character; JavaScript `toLowerCase` agrees on
the ASCII range, which is all the pipeline ever lower-cases (hex strings and
0x-addresses). -/
def lowerChar (c : Char) : Char :=
  if 'A' ≤ c ∧ c ≤ 'Z' then Char.ofNat (c.toNat + 32) else c

/-- JavaScript `s.toLowerCase()` on ASCII data. -/
def jsToLower (s : List Char) : List Char :=
  s.map lowerChar

/-- JavaScript `s.startsWith(p)`. -/
def jsStartsWith (p s : List Char) : Bool :=
  s.take p.length == p

/-- Hex-digit test (`0-9`, `a-f`, `A-F`). -/
def isHexDigit (c : Char) : Bool :=
  ('0' ≤ c && c ≤ '9') || ('a' ≤ c && c ≤ 'f') || ('A' ≤ c && c ≤ 'F')

/-- Numeric value of a hex digit. -/
def hexVal (c : Char) : Nat :=
  if '0' ≤ c && c ≤ '9' then c.toNat - 48
  else if 'a' ≤ c && c ≤ 'f' then c.toNat - 87
  else c.toNat - 55

/-- Value of a string of hex digits, most significant first. -/
def hexDigitsToNat (s : List Char) : Nat :=
  s.foldl (fun acc c => 16 * acc + hexVal c) 0

/-- JavaScript `BigInt("0x" + h)` where `h` is the argument: succeeds (with
the base-16 value) exactly when `h` is a non-empty string of hex digits,
otherwise the source would throw, which the embedding reports as `none`. -/
def bigIntOfHex (h : List Char) : Option Nat :=
  if h ≠ [] ∧ h.all isHexDigit then some (hexDigitsToNat h) else none

/-- JavaScript `BigInt(v)` for a `0x`-prefixed hex string `v` (the form the
pipeline passes: transaction `value` fields).  Throws (here: `none`) unless
the string is `0x` followed by at least one hex digit.  (`BigInt("0x")`
throws in JavaScript.) -/
def bigIntOfHexLiteral (v : List Char) : Option Nat :=
  if jsStartsWith ['0', 'x'] v then bigIntOfHex (v.drop 2) else none

/-- Decimal-digit test. -/
def isDecDigit (c : Char) : Bool :=
  '0' ≤ c && c ≤ '9'

/-- JavaScript `BigInt(s)` for a decimal string: succeeds exactly when `s`
is a non-empty string of decimal digits (the pipeline only re-parses amount
strings it produced itself with `toString()`).  Other accepted JavaScript
forms (signs, whitespace, other radix prefixes) never occur on this path. -/
def bigIntOfDec (s : List Char) : Option Nat :=
  if s ≠ [] ∧ s.all isDecDigit then
    some (s.foldl (fun acc c => 10 * acc + (c.toNat - 48)) 0)
  else none

/-- JavaScript `n.toString()` for a BigInt `n`: its decimal digits. -/
def natToDecStr (n : Nat) : List Char :=
  Nat.toDigits 10 n

/-- JavaScript `parseInt(s, 16)`: skips an optional `0x`/`0X` prefix, then
reads the longest prefix of hex digits; `NaN` (here: `none`) when that
prefix is empty.  Leading whitespace / sign handling is omitted: the source
only applies it to slices of validated hex payloads.  The source stores the
result in a JavaScript number; the pipeline only compares it against small
bounds or uses it when it is below 1024, where the float is exact, so the
embedding keeps the exact natural number. -/
def parseIntHex (s : List Char) : Option Nat :=
  let s' := if jsStartsWith ['0', 'x'] s || jsStartsWith ['0', 'X'] s then s.drop 2 else s
  let ds := s'.takeWhile isHexDigit
  if ds = [] then none else some (hexDigitsToNat ds)

/-! ### txSimulator.ts — revert-reason decoding

`Buffer.from(strHex, 'hex')` decodes consecutive valid hex-digit pairs and
stops at the first character that is not a hex digit (or at a dangling odd
digit); `buf.toString('utf8')` decodes UTF-8 with U+FFFD replacement for
invalid sequences.  Both are embedded below.  The claims only exercise the
all-valid, all-ASCII paths. -/

/-- `Buffer.from(s, 'hex')`: bytes of the longest even prefix of hex
digits. -/
def hexPairsToBytes : List Char → List Nat
  | hi :: lo :: rest =>
    if isHexDigit hi && isHexDigit lo then
      (16 * hexVal hi + hexVal lo) :: hexPairsToBytes rest
    else []
  | _ => []

/-- Is `b` a UTF-8 continuation byte (`10xxxxxx`)? -/
def isCont (b : Nat) : Bool :=
  128 ≤ b && b < 192

/-- Helper for `utf8Decode` below; the fuel argument (instantiated with the
byte-list length, an upper bound on the number of decoded characters since
every step consumes at least one byte) only serves termination. -/
def utf8DecodeAux : Nat → List Nat → List Char
  | 0, _ => []
  | _, [] => []
  | fuel + 1, b :: rest =>
    if b < 128 then Char.ofNat b :: utf8DecodeAux fuel rest
    else if 194 ≤ b && b ≤ 223 then
      match rest with
      | b2 :: rest2 =>
        if isCont b2 then Char.ofNat ((b - 192) * 64 + (b2 - 128)) :: utf8DecodeAux fuel rest2
        else Char.ofNat 0xFFFD :: utf8DecodeAux fuel rest
      | [] => [Char.ofNat 0xFFFD]
    else if 224 ≤ b && b ≤ 239 then
      match rest with
      | b2 :: b3 :: rest3 =>
        let cp := (b - 224) * 4096 + (b2 - 128) * 64 + (b3 - 128)
        if isCont b2 && isCont b3 && 2048 ≤ cp && ¬ (55296 ≤ cp && cp ≤ 57343) then
          Char.ofNat cp :: utf8DecodeAux fuel rest3
        else Char.ofNat 0xFFFD :: utf8DecodeAux fuel rest
      | _ => [Char.ofNat 0xFFFD]
    else if 240 ≤ b && b ≤ 244 then
      match rest with
      | b2 :: b3 :: b4 :: rest4 =>
        let cp := (b - 240) * 262144 + (b2 - 128) * 4096 + (b3 - 128) * 64 + (b4 - 128)
        if isCont b2 && isCont b3 && isCont b4 && 65536 ≤ cp && cp ≤ 1114111 then
          Char.ofNat cp :: utf8DecodeAux fuel rest4
        else Char.ofNat 0xFFFD :: utf8DecodeAux fuel rest
      | _ => [Char.ofNat 0xFFFD]
    else Char.ofNat 0xFFFD :: utf8DecodeAux fuel rest

/-- `buf.toString('utf8')`: UTF-8 decoding with U+FFFD replacement for
malformed sequences (the replacement branches are never reached by the
theorems below, which only feed ASCII bytes). -/
def utf8Decode (bytes : List Nat) : List Char :=
  utf8DecodeAux bytes.length bytes

/-- `n.toString(16)` for the fallback `Panic(0x..)` label. -/
def natToHexStr (n : Nat) : List Char :=
  Nat.toDigits 16 n

/-- The `Panic(uint256)` code table of `decodeRevertReason`. -/
def panicCodes (code : Nat) : Option (List Char) :=
  if code = 0x00 then some "Generic compiler panic".toList
  else if code = 0x01 then some "Assert failed".toList
  else if code = 0x11 then some "Arithmetic overflow/underflow".toList
  else if code = 0x12 then some "Division by zero".toList
  else if code = 0x21 then some "Invalid enum value".toList
  else if code = 0x22 then some "Storage encoding error".toList
  else if code = 0x31 then some "Empty array pop".toList
  else if code = 0x32 then some "Array out of bounds".toList
  else if code = 0x41 then some "Out of memory".toList
  else if code = 0x51 then some "Uninitialized function pointer".toList
  else none

/-- `decodeRevertReason` (txSimulator.ts:64-95).  A payload starting with
`0x08c379a2` of length ≥ 138 is treated as `Error(string)`: the length word
at characters 74..138 is read with `parseInt(·, 16)` and, when strictly
between 0 and 1024, that many bytes are hex-decoded and UTF-8 decoded.
When the `Error(string)` branch does not produce a string the source falls
through to the `Panic(uint256)` branch, and otherwise returns `null`. -/
def decodeRevertReason (hex : List Char) : Option (List Char) :=
  let errorBranch : Option (List Char) :=
    if jsStartsWith "0x08c379a2".toList hex && decide (hex.length ≥ 138) then
      match parseIntHex (jsSlice hex 74 138) with
      | some strLen =>
        if 0 < strLen && strLen < 1024 then
          some (utf8Decode (hexPairsToBytes (jsSlice hex 138 (138 + strLen * 2))))
        else none
      | none => none
    else none
  match errorBranch with
  | some r => some r
  | none =>
    if jsStartsWith "0x4e487b71".toList hex && decide (hex.length ≥ 74) then
      match parseIntHex (jsSlice hex 10 74) with
      | some code =>
        some ((panicCodes code).getD ("Panic(0x".toList ++ natToHexStr code ++ [')']))
      | none => some ("Panic(0x".toList ++ "NaN".toList ++ [')'])
    else none

/-- `EthCallResult` (txSimulator.ts:17-21). -/
structure EthCallResult where
  success : Bool
  returnData : Option (List Char)
  revertReason : Option (List Char)
deriving Repr, DecidableEq

/-! ### txSignals.ts — calldata decoding and signal extraction -/

/-- `KNOWN_SELECTORS` (txSignals.ts:12-27): the immutable selector-to-
signature registry, as an association list. -/
def KNOWN_SELECTORS : List (List Char × List Char) :=
  [ ("0x095ea7b3".toList, "approve(address,uint256)".toList)
  , ("0xa9059cbb".toList, "transfer(address,uint256)".toList)
  , ("0x23b872dd".toList, "transferFrom(address,address,uint256)".toList)
  , ("0xd505accf".toList, "permit(address,address,uint256,uint256,uint8,bytes32,bytes32)".toList)
  , ("0x2b67b570".toList, "permit(address,uint256,uint256,uint8,bytes32,bytes32)".toList)
  , ("0xac9650d8".toList, "multicall(bytes[])".toList)
  , ("0x5ae401dc".toList, "multicall(uint256,bytes[])".toList)
  , ("0x1f0464d1".toList, "multicall(bytes32,bytes[])".toList)
  , ("0x3593564c".toList, "execute(bytes,bytes[],uint256)".toList)
  , ("0x2a2d80d1".toList, "permit(address,((address,uint160,uint48,uint48)[],address,uint256),bytes)".toList)
  , ("0x30f28b7a".toList, "permit(((address,uint160,uint48,uint48),address,uint256),bytes)".toList)
  , ("0x36c78516".toList, "transferFrom(address,address,uint160,address)".toList)
  , ("0x0d58b1db".toList, "allowance(address,address,address)".toList)
  , ("0x87517c45".toList, "approve(address,(address,uint160,uint48)[],uint256)".toList)
  ]

/-- `MAX_UINT256` (txSignals.ts:29). -/
def MAX_UINT256 : Nat := 2 ^ 256 - 1

/-- `HIGH_APPROVAL_THRESHOLD` (txSignals.ts:30). -/
def HIGH_APPROVAL_THRESHOLD : Nat := 2 ^ 255

/-- `ApprovalSignal` (txSignals.ts:34-39); `amount` is a decimal string. -/
structure ApprovalSignal where
  token : List Char
  owner : List Char
  spender : List Char
  amount : List Char
deriving Repr, DecidableEq, Inhabited

/-- `TransferSignal` (txSignals.ts:41-46). -/
structure TransferSignal where
  token : List Char
  from_ : List Char
  to_ : List Char
  amount : List Char
deriving Repr, DecidableEq

/-- `TxSignals` (txSignals.ts:48-57); `spenderIsContract` is the tri-state
`bool | null` as `Option Bool`. -/
structure TxSignals where
  knownMethod : Option (List Char)
  approvals : List ApprovalSignal
  erc20Transfers : List TransferSignal
  unlimitedApproval : Bool
  spenderIsContract : Option Bool
  isPermit : Bool
  isMulticall : Bool
  highValueNativeTransfer : Bool
deriving Repr, DecidableEq

/-- `getSelector` (txSignals.ts:61-64): `null` when the calldata is empty
or shorter than 10 characters, otherwise the lower-cased first 10. -/
def getSelector (data : List Char) : Option (List Char) :=
  if data = [] ∨ data.length < 10 then none
  else some (jsToLower (jsSlice data 0 10))

/-- `identifyMethod` (txSignals.ts:66-70): registry lookup;
`KNOWN_SELECTORS[selector] || null`. -/
def identifyMethod (data : List Char) : Option (List Char) :=
  match getSelector data with
  | none => none
  | some selector =>
    match KNOWN_SELECTORS.lookup selector with
    | some sig => some sig
    | none => none

/-- `parseApproval` (txSignals.ts:72-94).  Only fires for selector
`0x095ea7b3` and calldata of at least 138 characters; the spender is the
right-aligned 20 bytes of the first argument word, the amount the full
second word.  `BigInt('0x' + amountHex)` would throw on non-hex characters
(excluded by route validation); the embedding returns `none` there. -/
def parseApproval (data tokenAddress fromAddress : List Char) : Option ApprovalSignal :=
  match getSelector data with
  | none => none
  | some selector =>
    if selector ≠ "0x095ea7b3".toList then none
    else if data.length < 138 then none
    else
      match bigIntOfHex (jsSlice data 74 138) with
      | none => none
      | some amount =>
        some { token := jsToLower tokenAddress
             , owner := jsToLower fromAddress
             , spender := '0' :: 'x' :: jsToLower (jsSlice data 34 74)
             , amount := natToDecStr amount }

/-- `isUnlimitedApproval` (txSignals.ts:96-103): re-parse the decimal
amount string with `BigInt` (`catch` → `false`) and compare against the
two thresholds. -/
def isUnlimitedApproval (amountStr : List Char) : Bool :=
  match bigIntOfDec amountStr with
  | none => false
  | some amount => decide (amount ≥ HIGH_APPROVAL_THRESHOLD) || amount == MAX_UINT256

/-- `parseTransfer` (txSignals.ts:105-140): `transfer(address,uint256)` and
`transferFrom(address,address,uint256)` at their fixed byte offsets. -/
def parseTransfer (data tokenAddress fromAddress : List Char) : Option TransferSignal :=
  match getSelector data with
  | none => none
  | some selector =>
    if selector = "0xa9059cbb".toList ∧ data.length ≥ 138 then
      match bigIntOfHex (jsSlice data 74 138) with
      | none => none
      | some amount =>
        some { token := jsToLower tokenAddress
             , from_ := jsToLower fromAddress
             , to_ := '0' :: 'x' :: jsToLower (jsSlice data 34 74)
             , amount := natToDecStr amount }
    else if selector = "0x23b872dd".toList ∧ data.length ≥ 202 then
      match bigIntOfHex (jsSlice data 138 202) with
      | none => none
      | some amount =>
        some { token := jsToLower tokenAddress
             , from_ := '0' :: 'x' :: jsToLower (jsSlice data 34 74)
             , to_ := '0' :: 'x' :: jsToLower (jsSlice data 98 138)
             , amount := natToDecStr amount }
    else none

/-- `isPermitSelector` (txSignals.ts:142-147). -/
def isPermitSelector (selector : Option (List Char)) : Bool :=
  match selector with
  | none => false
  | some s =>
    ["0xd505accf".toList, "0x2b67b570".toList, "0x2a2d80d1".toList,
     "0x30f28b7a".toList, "0x87517c45".toList].contains s

/-- `isMulticallSelector` (txSignals.ts:149-154). -/
def isMulticallSelector (selector : Option (List Char)) : Bool :=
  match selector with
  | none => false
  | some s =>
    ["0xac9650d8".toList, "0x5ae401dc".toList, "0x1f0464d1".toList,
     "0x3593564c".toList].contains s

/-- The default threshold conversion of `isHighValueNative`
(txSignals.ts:160): `BigInt(Math.floor(0.25 * 1e18))`.  `0.25` and `1e18`
are exactly representable in binary64 and their product `2.5e17` is too
(`2.5e17 = 5^18 · 2^16` with `5^18 < 2^53`), so no rounding occurs and the
value is exactly `250000000000000000`. -/
def defaultThresholdWei : Nat := 250000000000000000

/-- `isHighValueNative` (txSignals.ts:156-165) at its default threshold of
0.25, the only way the pipeline calls it.  `BigInt(valueHex)` throwing on
malformed hex is the `catch` branch returning `false`. -/
def isHighValueNative (valueHex : Option (List Char)) : Bool :=
  match valueHex with
  | none => false
  | some v =>
    if v = [] ∨ v = "0x0".toList ∨ v = "0x00".toList ∨ v = "0x".toList then false
    else
      match bigIntOfHexLiteral v with
      | none => false
      | some wei => decide (wei ≥ defaultThresholdWei)

/-- `extractSignals` (txSignals.ts:169-216).  The one `await` on network
state — `getCode(chainId, approval.spender)` — is passed in as the oracle
argument `codeResult`: `getCode` (txSimulator.ts:179-190) resolves to
`null` on a missing endpoint, an RPC error, a timeout or any transport
failure (every failure path is caught inside it, so the `catch` branch in
`extractSignals` is unreachable), and to the code string otherwise.
`spenderIsContract` is only assigned when the result is non-`null`. -/
def extractSignals (from_ toAddr data : List Char) (value : Option (List Char))
    (codeResult : Option (List Char)) : TxSignals :=
  let selector := getSelector data
  let knownMethod := identifyMethod data
  let approval := parseApproval data toAddr from_
  let approvals := match approval with | some a => [a] | none => []
  let unlimitedApproval := match approval with
    | some a => isUnlimitedApproval a.amount
    | none => false
  let spenderIsContract : Option Bool := match approval with
    | none => none
    | some _ =>
      match codeResult with
      | none => none
      | some code =>
        some (decide (code ≠ "0x".toList ∧ code ≠ "0x0".toList ∧ code.length > 2))
  let transfer := parseTransfer data toAddr from_
  { knownMethod := knownMethod
  , approvals := approvals
  , erc20Transfers := match transfer with | some t => [t] | none => []
  , unlimitedApproval := unlimitedApproval
  , spenderIsContract := spenderIsContract
  , isPermit := isPermitSelector selector
  , isMulticall := isMulticallSelector selector
  , highValueNativeTransfer := isHighValueNative value }

/-! ### txRiskEngine.ts — explainable risk scoring -/

/-- `Verdict` (txRiskEngine.ts:10). -/
inductive Verdict where
  | SAFE
  | WARNING
  | DANGER
deriving Repr, DecidableEq, Inhabited

/-- `RiskAssessment` (txRiskEngine.ts:12-17). -/
structure RiskAssessment where
  verdict : Verdict
  confidence : Nat
  summary : List Char
  reasons : List (List Char)
deriving Repr, DecidableEq

/-- `RuleResult` (txRiskEngine.ts:19-23). -/
structure RuleResult where
  verdict : Verdict
  confidence : Nat
  reason : List Char
deriving Repr, DecidableEq, Inhabited

/-- Case-insensitive substring test: the regex
`/TRANSFER_FROM_FAILED|insufficient allowance|insufficient balance|execution reverted/i`
of `ruleRevert` contains no metacharacters besides the alternation, so it
matches exactly when one of the four literals occurs case-insensitively. -/
def dangerousRevertPattern (reason : List Char) : Bool :=
  ["transfer_from_failed".toList, "insufficient allowance".toList,
   "insufficient balance".toList, "execution reverted".toList].any
    (fun p => decide (List.IsInfix p (jsToLower reason)))

/-- `ethCallResult.revertReason || 'Transaction reverted'` in `ruleRevert`:
the JavaScript `||` replaces both `null` and an empty revert reason. -/
def effectiveRevertReason (ethCallResult : EthCallResult) : List Char :=
  match ethCallResult.revertReason with
  | some r => if r = [] then "Transaction reverted".toList else r
  | none => "Transaction reverted".toList

/-- `ruleRevert` (txRiskEngine.ts:27-40). -/
def ruleRevert (ethCallResult : EthCallResult) : Option RuleResult :=
  if ethCallResult.success then none
  else
    let reason := effectiveRevertReason ethCallResult
    let isDangerous := dangerousRevertPattern reason
    some { verdict := if isDangerous then Verdict.DANGER else Verdict.WARNING
         , confidence := if isDangerous then 85 else 70
         , reason := "Transaction would revert: ".toList ++ reason }

/-- `ruleUnlimitedApproval` (txRiskEngine.ts:42-65). -/
def ruleUnlimitedApproval (signals : TxSignals) : Option RuleResult :=
  if signals.unlimitedApproval ∧ signals.approvals.length > 0 then
    match signals.spenderIsContract with
    | some true =>
      some { verdict := Verdict.DANGER
           , confidence := 90
           , reason := "Unlimited token approval to contract ".toList ++
               (signals.approvals.headI).spender ++
               ". This grants the contract full access to spend your tokens.".toList }
    | some false =>
      some { verdict := Verdict.DANGER
           , confidence := 95
           , reason := "Unlimited token approval to an EOA (".toList ++
               (signals.approvals.headI).spender ++
               "). Externally owned accounts with unlimited approval is highly suspicious.".toList }
    | none =>
      some { verdict := Verdict.DANGER
           , confidence := 85
           , reason := "Unlimited token approval detected for spender ".toList ++
               (signals.approvals.headI).spender ++ ['.'] }
  else none

/-- `ruleLimitedApproval` (txRiskEngine.ts:67-76). -/
def ruleLimitedApproval (signals : TxSignals) : Option RuleResult :=
  if ¬ signals.unlimitedApproval ∧ signals.approvals.length > 0 then
    some { verdict := Verdict.WARNING
         , confidence := 50
         , reason := "Token approval for ".toList ++ (signals.approvals.headI).amount ++
             " tokens to spender ".toList ++ (signals.approvals.headI).spender ++
             ". Verify you trust this contract.".toList }
  else none

/-- `rulePermit` (txRiskEngine.ts:78-87). -/
def rulePermit (signals : TxSignals) : Option RuleResult :=
  if signals.isPermit then
    some { verdict := Verdict.WARNING
         , confidence := 75
         , reason := "Signature-based approval (permit) detected. This allows a third party to spend tokens using your signature without an on-chain approve transaction.".toList }
  else none

/-- `ruleHighValueTransfer` (txRiskEngine.ts:89-98). -/
def ruleHighValueTransfer (signals : TxSignals) : Option RuleResult :=
  if signals.highValueNativeTransfer then
    some { verdict := Verdict.WARNING
         , confidence := 60
         , reason := "High-value native ETH transfer detected (>0.25 ETH). Double-check the recipient address.".toList }
  else none

/-- `ruleUnknownMethod` (txRiskEngine.ts:100-109).  The JavaScript
truthiness test `!signals.knownMethod` also treats an empty method name as
unknown (the registry never produces one). -/
def ruleUnknownMethod (signals : TxSignals) (toIsEOA : Bool) (data : List Char) :
    Option RuleResult :=
  if (signals.knownMethod = none ∨ signals.knownMethod = some []) ∧
      data.length > 10 ∧ ¬ toIsEOA then
    some { verdict := Verdict.WARNING
         , confidence := 40
         , reason := "Unknown contract method called (selector: ".toList ++
             jsSlice data 0 10 ++ "). Cannot verify the intent of this transaction.".toList }
  else none

/-- `ruleDirectEOATransfer` (txRiskEngine.ts:111-120).  `value` is
`string | undefined`; the JavaScript truthiness test `value &&` also
excludes the empty string. -/
def ruleDirectEOATransfer (toIsEOA : Bool) (value : Option (List Char)) :
    Option RuleResult :=
  let valueTruthyNonZero : Bool := match value with
    | none => false
    | some v => decide (v ≠ [] ∧ v ≠ "0x0".toList ∧ v ≠ "0x00".toList ∧ v ≠ "0x".toList)
  if toIsEOA ∧ valueTruthyNonZero then
    some { verdict := Verdict.WARNING
         , confidence := 30
         , reason := "Direct ETH transfer to an externally owned account. Verify the recipient.".toList }
  else none

/-- `ruleMulticall` (txRiskEngine.ts:122-131). -/
def ruleMulticall (signals : TxSignals) : Option RuleResult :=
  if signals.isMulticall then
    some { verdict := Verdict.WARNING
         , confidence := 55
         , reason := "Multicall/batch execution detected. This bundles multiple operations in one transaction, making it harder to verify each action.".toList }
  else none

/-- The `results` array of `assessRisk` (txRiskEngine.ts:142-166): each
rule pushed in evaluation order when it fires. -/
def firedRules (ethCallResult : EthCallResult) (signals : TxSignals)
    (toIsEOA : Bool) (data : List Char) (value : Option (List Char)) :
    List RuleResult :=
  (ruleRevert ethCallResult).toList ++
  (ruleUnlimitedApproval signals).toList ++
  (ruleLimitedApproval signals).toList ++
  (rulePermit signals).toList ++
  (ruleHighValueTransfer signals).toList ++
  (ruleUnknownMethod signals toIsEOA data).toList ++
  (ruleDirectEOATransfer toIsEOA value).toList ++
  (ruleMulticall signals).toList

/-- Insertion step of a stable descending sort by confidence.  `sortDesc`
below inserts each element into the sorted image of the elements that
followed it, so stability demands that it land before the first element
that is not strictly more confident. -/
def insertDesc (x : RuleResult) : List RuleResult → List RuleResult
  | [] => [x]
  | y :: ys => if y.confidence ≤ x.confidence then x :: y :: ys else y :: insertDesc x ys

/-- Stable descending sort by confidence.  The source sorts with
`relevantResults.sort((a, b) => b.confidence - a.confidence)`;
`Array.prototype.sort` is stable (ECMAScript 2019), and a stable sort by a
total preorder is extensionally unique, so any stable descending sort
embeds it. -/
def sortDesc : List RuleResult → List RuleResult
  | [] => []
  | x :: xs => insertDesc x (sortDesc xs)

/-- `assessRisk` (txRiskEngine.ts:135-196).  `Math.max(...xs)` over the
(always non-empty, non-negative) confidences is the fold below, and
`topResult` is the head of the stable descending sort. -/
def assessRisk (ethCallResult : EthCallResult) (signals : TxSignals)
    (toIsEOA : Bool) (data : List Char) (value : Option (List Char)) :
    RiskAssessment :=
  let results := firedRules ethCallResult signals toIsEOA data value
  if results.isEmpty then
    { verdict := Verdict.SAFE
    , confidence := 70
    , summary := "No suspicious patterns detected in this transaction.".toList
    , reasons := ["No revert detected".toList, "No dangerous approval patterns".toList,
                  "Known or benign method".toList] }
  else
    let hasDanger := results.any (fun r => r.verdict == Verdict.DANGER)
    let hasWarning := results.any (fun r => r.verdict == Verdict.WARNING)
    let verdict := if hasDanger then Verdict.DANGER
      else if hasWarning then Verdict.WARNING else Verdict.SAFE
    let relevantResults := results.filter (fun r => r.verdict == verdict)
    let confidence := relevantResults.foldl (fun m r => Nat.max m r.confidence) 0
    let topResult := (sortDesc relevantResults).headI
    { verdict := verdict
    , confidence := confidence
    , summary := topResult.reason
    , reasons := results.map (fun r => r.reason) }

/-! ### txSimulator.ts — compliant warning engine

The two regex utilities (`sanitizeLanguage`, `containsForbiddenLanguage`)
are embedded as direct scanners for their concrete patterns.  `\b` is a
transition between a word character (`[A-Za-z0-9_]`) and a non-word
character or string edge; `\s` is embedded as ASCII whitespace (the only
whitespace these texts carry); `/i` is embedded by lower-casing both sides.
`String.prototype.replace` with a `/g` regex rewrites the leftmost match,
resumes scanning right after the matched source text (replacements are not
rescanned within a pass), and later boundary assertions read the source
characters, which the scanner tracks via the previous source character. -/

/-- Word character for `\b` (`[A-Za-z0-9_]`). -/
def isWordChar (c : Char) : Bool :=
  ('a' ≤ c && c ≤ 'z') || ('A' ≤ c && c ≤ 'Z') || ('0' ≤ c && c ≤ '9') || c == '_'

/-- Does the previous character (none at the start of the string) make a
`\b` boundary before a word character? -/
def boundaryBefore (prev : Option Char) : Bool :=
  match prev with
  | none => true
  | some c => ¬ isWordChar c

/-- JavaScript `\s` on the ASCII range. -/
def isSpaceJs (c : Char) : Bool :=
  c == ' ' || c == '\t' || c == '\n' || c == '\r' || c == '\x0b' || c == '\x0c'

/-- Case-insensitive literal prefix match (`pat` given lower-case). -/
def ciPrefix (pat s : List Char) : Bool :=
  decide (pat.length ≤ s.length) && jsToLower (s.take pat.length) == pat

/-- `\b` after `n` consumed word characters: end of string or a non-word
character next. -/
def boundaryAfter (s : List Char) (n : Nat) : Bool :=
  match s.drop n with
  | [] => true
  | c :: _ => ¬ isWordChar c

/-- Does `\s+not\b` match at the start of `t` (the lookahead of the `will`
replacement rule)?  `not` starts with a non-space character, so the only
split the regex can use puts the whole whitespace run in `\s+`. -/
def wsNotAhead (t : List Char) : Bool :=
  let ws := t.takeWhile isSpaceJs
  let r := t.drop ws.length
  ws ≠ [] && ciPrefix "not".toList r && boundaryAfter r 3

/-- One replacement rule: given the previous source character and the rest
of the source, either no match here or the matched length and the
replacement text. -/
def Matcher : Type := Option Char → List Char → Option (Nat × List Char)

/-- A plain `\bword\b` rule (pattern lower-case, starting and ending in
word characters, as all the listed phrases do). -/
def wordRule (pat repl : List Char) : Matcher := fun prev s =>
  if boundaryBefore prev && ciPrefix pat s && boundaryAfter s pat.length then
    some (pat.length, repl)
  else none

/-- `/\bfunds will be stolen\b/gi → 'funds could be moved'`. -/
def ruleFundsStolen : Matcher :=
  wordRule "funds will be stolen".toList "funds could be moved".toList

/-- `/\byou will lose\b/gi → 'you could lose'`. -/
def ruleYouWillLose : Matcher :=
  wordRule "you will lose".toList "you could lose".toList

/-- `/\bwill\b(?!\s+not\b)/gi → 'may'`. -/
def ruleWill : Matcher := fun prev s =>
  if boundaryBefore prev && ciPrefix "will".toList s && boundaryAfter s 4 &&
      ¬ wsNotAhead (s.drop 4) then
    some (4, "may".toList)
  else none

/-- `/\bguaranteed?\b/gi → 'likely'`: the greedy optional `d` is tried
first, then the bare stem; in each case the trailing `\b` must hold. -/
def ruleGuaranteed : Matcher := fun prev s =>
  if boundaryBefore prev then
    if ciPrefix "guaranteed".toList s && boundaryAfter s 10 then some (10, "likely".toList)
    else if ciPrefix "guarantee".toList s && boundaryAfter s 9 then some (9, "likely".toList)
    else none
  else none

/-- `/\bdefinitely\b/gi → 'may'`. -/
def ruleDefinitely : Matcher := wordRule "definitely".toList "may".toList

/-- `/\bscam\b/gi → 'high-risk'`. -/
def ruleScam : Matcher := wordRule "scam".toList "high-risk".toList

/-- `/\bmalicious\b/gi → 'potentially harmful'`. -/
def ruleMalicious : Matcher := wordRule "malicious".toList "potentially harmful".toList

/-- `/\bdrain\b/gi → 'move'`. -/
def ruleDrain : Matcher := wordRule "drain".toList "move".toList

/-- One global-replace pass: scan left to right, emit the replacement at a
match and resume after the matched source text (tracking its last source
character for the next boundary test).  Fuel is the remaining length; every
step consumes at least one source character (no pattern here matches the
empty string). -/
def runPassAux (m : Matcher) : Nat → Option Char → List Char → List Char
  | 0, _, s => s
  | _ + 1, _, [] => []
  | fuel + 1, prev, c :: cs =>
    match m prev (c :: cs) with
    | some (len, repl) =>
      repl ++ runPassAux m fuel (((c :: cs).take len).getLastD c) ((c :: cs).drop len)
    | none => c :: runPassAux m fuel (some c) cs

/-- `text.replace(pattern, replacement)` for one rule of
`FORBIDDEN_REPLACEMENTS`. -/
def runPass (m : Matcher) (s : List Char) : List Char :=
  runPassAux m s.length none s

/-- `sanitizeLanguage` (txSimulator.ts:324-330): the ordered replacement
list `FORBIDDEN_REPLACEMENTS` (txSimulator.ts:313-322), idiom rules first,
applied top to bottom. -/
def sanitizeLanguage (text : List Char) : List Char :=
  runPass ruleDrain (runPass ruleMalicious (runPass ruleScam (runPass ruleDefinitely
    (runPass ruleGuaranteed (runPass ruleWill (runPass ruleYouWillLose
      (runPass ruleFundsStolen text)))))))

/-- Does the predicate match at some position of the text (regex `test`)? -/
def existsPosAux (p : Option Char → List Char → Bool) :
    Option Char → List Char → Bool
  | _, [] => false
  | prev, c :: cs => p prev (c :: cs) || existsPosAux p (some c) cs

/-- Existence of a match anywhere in the text. -/
def existsPos (p : Option Char → List Char → Bool) (t : List Char) : Bool :=
  existsPosAux p none t

/-- A `\bword\b` test pattern. -/
def testWordBounded (pat : List Char) : Option Char → List Char → Bool :=
  fun prev s => boundaryBefore prev && ciPrefix pat s && boundaryAfter s pat.length

/-- `/\bwill\s+(?!not\b)/i`: after `will` there must be a whitespace run of
length ≥ 1; with a run of length ≥ 2 the engine backtracks `\s+` to one
character, after which the next character is whitespace and the negative
lookahead trivially succeeds; with a run of exactly one the lookahead is
tested against what follows it. -/
def testWillSpace : Option Char → List Char → Bool := fun prev s =>
  boundaryBefore prev && ciPrefix "will".toList s &&
    (let r := s.drop 4
     let ws := r.takeWhile isSpaceJs
     ws ≠ [] &&
       (decide (ws.length ≥ 2) ||
        ¬ (ciPrefix "not".toList (r.drop ws.length) && boundaryAfter (r.drop ws.length) 3)))

/-- `/\bguarantee/i` — note: no trailing `\b` in the source. -/
def testGuaranteeStem : Option Char → List Char → Bool := fun prev s =>
  boundaryBefore prev && ciPrefix "guarantee".toList s

/-- `containsForbiddenLanguage` (txSimulator.ts:332-343): the audit
predicate; `forbidden.some((rx) => rx.test(text))`. -/
def containsForbiddenLanguage (text : List Char) : Bool :=
  existsPos testWillSpace text ||
  existsPos testGuaranteeStem text ||
  existsPos (testWordBounded "definitely".toList) text ||
  existsPos (testWordBounded "scam".toList) text ||
  existsPos (testWordBounded "malicious".toList) text ||
  existsPos (testWordBounded "you will lose".toList) text ||
  existsPos (testWordBounded "funds will be stolen".toList) text

/-- `Severity` (txSimulator.ts:267). -/
inductive Severity where
  | INFO
  | LOW
  | MEDIUM
  | HIGH
deriving Repr, DecidableEq

/-- `CompliantMessage` (txSimulator.ts:269-276). -/
structure CompliantMessage where
  severity : Severity
  title : List Char
  summary : List Char
  details : List (List Char)
  recommendation : List Char
  confidence : Nat
deriving Repr, DecidableEq

/-- `EvidenceTag` (txSimulator.ts:278-288). -/
inductive EvidenceTag where
  | UNLIMITED_APPROVAL
  | LIMITED_APPROVAL
  | PERMIT_SIGNATURE
  | HIGH_VALUE_NATIVE_TRANSFER
  | UNKNOWN_METHOD
  | EOA_TRANSFER
  | MULTICALL
  | REVERT
  | KNOWN_BAD_ADDRESS
  | KNOWN_BAD_CONTRACT
deriving Repr, DecidableEq

/-- The `approvals` entries of `WarningInput.signals` (spender and amount
only). -/
structure SpenderAmount where
  spender : List Char
  amount : List Char
deriving Repr, DecidableEq

/-- The `signals` field of `WarningInput` (txSimulator.ts:293-303). -/
structure WarningSignals where
  unlimitedApproval : Bool
  approvals : List SpenderAmount
  spenderIsContract : Option Bool
  knownMethod : Option (List Char)
  highValueNativeTransfer : Bool
  reverted : Bool
  revertReason : Option (List Char)
  isPermit : Bool
  isMulticall : Bool
deriving Repr, DecidableEq

/-- The optional `evidence` field of `WarningInput` (txSimulator.ts:304-307). -/
structure Evidence where
  tags : List EvidenceTag
  sources : List (List Char)
deriving Repr, DecidableEq

/-- `WarningInput` (txSimulator.ts:290-308). -/
structure WarningInput where
  verdict : Verdict
  confidence : Nat
  signals : WarningSignals
  evidence : Option Evidence
deriving Repr, DecidableEq

/-- `mapVerdictToSeverity` (txSimulator.ts:347-351). -/
def mapVerdictToSeverity (verdict : Verdict) (confidence : Nat) : Severity :=
  match verdict with
  | Verdict.SAFE => Severity.INFO
  | Verdict.WARNING => if confidence ≥ 60 then Severity.MEDIUM else Severity.LOW
  | Verdict.DANGER => Severity.HIGH

/-- `input.signals.approvals[0]?.spender ?? 'unknown'`. -/
def firstSpender (input : WarningInput) : List Char :=
  match input.signals.approvals with
  | a :: _ => a.spender
  | [] => "unknown".toList

/-- `input.signals.approvals[0]?.amount ?? 'unknown'`. -/
def firstAmount (input : WarningInput) : List Char :=
  match input.signals.approvals with
  | a :: _ => a.amount
  | [] => "unknown".toList

/-- `buildUnlimitedApprovalMessage` (txSimulator.ts:355-377). -/
def buildUnlimitedApprovalMessage (input : WarningInput) : CompliantMessage :=
  let spender := firstSpender input
  let details :=
    ["Unlimited approvals can be convenient, but they could increase risk if a contract is compromised.".toList] ++
    (match input.signals.spenderIsContract with
     | some true => ["The spender appears to be a smart contract.".toList]
     | some false => ["The spender appears to be an externally owned account (not a contract), which is uncommon for legitimate approvals.".toList]
     | none => []) ++
    ["Spender address: ".toList ++ spender]
  { severity := Severity.HIGH
  , title := "Unlimited approval request".toList
  , summary := "This transaction requests permission that may allow token movement beyond what is required.".toList
  , details := details.take 4
  , recommendation := "Proceed only if you trust this app and understand why unlimited approval is needed.".toList
  , confidence := input.confidence }

/-- `buildLimitedApprovalMessage` (txSimulator.ts:379-395). -/
def buildLimitedApprovalMessage (input : WarningInput) : CompliantMessage :=
  { severity := mapVerdictToSeverity input.verdict input.confidence
  , title := "Token approval request".toList
  , summary := "This transaction requests permission to allow a specified amount of tokens to be moved by another address.".toList
  , details :=
    [ "Amount: ".toList ++ firstAmount input ++ " tokens".toList
    , "Spender: ".toList ++ firstSpender input
    , "Limited approvals are generally safer than unlimited ones, but you should still verify the spender.".toList ]
  , recommendation := "Verify you trust the receiving contract before approving.".toList
  , confidence := input.confidence }

/-- `buildPermitMessage` (txSimulator.ts:397-412). -/
def buildPermitMessage (input : WarningInput) : CompliantMessage :=
  { severity := if input.confidence ≥ 70 then Severity.HIGH else Severity.MEDIUM
  , title := "Signature-based approval".toList
  , summary := "This transaction includes a signature approval that could grant token access without an on-chain approval step.".toList
  , details :=
    [ "Permit signatures allow a third party to move tokens using your signature.".toList
    , "This is a common pattern in DeFi, but it can be misused if the signature is obtained deceptively.".toList
    , "No on-chain transaction is needed to execute this approval once signed.".toList ]
  , recommendation := "Only proceed if you initiated this action from a trusted app.".toList
  , confidence := input.confidence }

/-- `buildHighValueTransferMessage` (txSimulator.ts:414-426). -/
def buildHighValueTransferMessage (input : WarningInput) : CompliantMessage :=
  { severity := Severity.MEDIUM
  , title := "Large transfer detected".toList
  , summary := "This transaction could transfer a significant amount of the network\x27s native asset.".toList
  , details :=
    [ "Large transfers carry higher consequences if sent to an incorrect address.".toList
    , "Native asset transfers are irreversible once confirmed.".toList ]
  , recommendation := "Confirm the destination address and amount before proceeding.".toList
  , confidence := input.confidence }

/-- `buildUnknownMethodMessage` (txSimulator.ts:428-442). -/
def buildUnknownMethodMessage (input : WarningInput) : CompliantMessage :=
  { severity := if input.confidence ≥ 50 then Severity.MEDIUM else Severity.LOW
  , title := "Unrecognized contract call".toList
  , summary := "This transaction calls a contract method that could not be identified.".toList
  , details :=
    [ "The function being called does not match any commonly known method signatures.".toList
    , "This could be a custom or less common contract interaction.".toList ]
  , recommendation := "If you do not recognize this action, consider reviewing details in the portal before proceeding.".toList
  , confidence := input.confidence }

/-- `buildRevertMessage` (txSimulator.ts:444-461). -/
def buildRevertMessage (input : WarningInput) : CompliantMessage :=
  let details :=
    ["The simulation indicates this transaction may not succeed.".toList] ++
    (match input.signals.revertReason with
     | some r => if r = [] then [] else ["Reason: ".toList ++ sanitizeLanguage r]
     | none => []) ++
    ["If you proceed, the transaction may fail and could still cost gas fees.".toList]
  { severity := if input.confidence ≥ 80 then Severity.LOW else Severity.INFO
  , title := "Transaction may not succeed".toList
  , summary := "Simulation indicates this transaction may fail or revert.".toList
  , details := details.take 4
  , recommendation := "If you proceed, be aware it may fail and still cost gas.".toList
  , confidence := input.confidence }

/-- `buildMulticallMessage` (txSimulator.ts:463-476). -/
def buildMulticallMessage (input : WarningInput) : CompliantMessage :=
  { severity := Severity.MEDIUM
  , title := "Batched transaction detected".toList
  , summary := "This transaction bundles multiple operations together, which can make it harder to verify each action individually.".toList
  , details :=
    [ "Multicall transactions execute several steps in a single transaction.".toList
    , "This is a common pattern in DeFi routers, but increases complexity.".toList
    , "Each bundled operation may have different risk characteristics.".toList ]
  , recommendation := "Verify you understand all the operations this transaction performs before proceeding.".toList
  , confidence := input.confidence }

/-- `buildEoaTransferMessage` (txSimulator.ts:478-490). -/
def buildEoaTransferMessage (input : WarningInput) : CompliantMessage :=
  { severity := Severity.LOW
  , title := "Direct transfer detected".toList
  , summary := "This transaction sends the network\x27s native asset directly to another address.".toList
  , details :=
    [ "This is a standard transfer to an externally owned account.".toList
    , "Once confirmed, this transfer is irreversible.".toList ]
  , recommendation := "Double-check the recipient address before confirming.".toList
  , confidence := input.confidence }

/-- `buildKnownBadAddressMessage` (txSimulator.ts:492-510). -/
def buildKnownBadAddressMessage (input : WarningInput) : CompliantMessage :=
  let sources := match input.evidence with
    | some e => e.sources
    | none => []
  let details :=
    ["This address has been flagged by one or more security sources.".toList] ++
    (if sources.length > 0 then
      ["Reported by: ".toList ++ (List.intercalate ", ".toList (sources.take 2))]
     else []) ++
    ["Addresses on security lists are commonly associated with reported incidents.".toList]
  { severity := Severity.HIGH
  , title := "High-risk address flagged".toList
  , summary := "This address is flagged by one or more security sources as being associated with reported incidents.".toList
  , details := details.take 4
  , recommendation := "Consider avoiding this transaction unless you can verify the legitimacy independently.".toList
  , confidence := input.confidence }

/-- `buildSafeMessage` (txSimulator.ts:512-530). -/
def buildSafeMessage (input : WarningInput) : CompliantMessage :=
  let details :=
    [ "No revert detected in simulation.".toList
    , "No high-risk approval patterns identified.".toList ] ++
    (match input.signals.knownMethod with
     | some m => if m = [] then [] else ["Recognized method: ".toList ++ m]
     | none => [])
  { severity := Severity.INFO
  , title := "No elevated risk detected".toList
  , summary := "This transaction does not exhibit patterns commonly associated with elevated risk.".toList
  , details := details.take 4
  , recommendation := "As always, verify the transaction details match your intent before confirming.".toList
  , confidence := input.confidence }

/-- `detectTags` (txSimulator.ts:534-546): the pushes in source order;
`!input.signals.knownMethod` is falsy for `null` and for the empty
string. -/
def detectTags (input : WarningInput) : List EvidenceTag :=
  (if input.signals.unlimitedApproval then [EvidenceTag.UNLIMITED_APPROVAL]
   else if input.signals.approvals.length > 0 then [EvidenceTag.LIMITED_APPROVAL]
   else []) ++
  (if input.signals.isPermit then [EvidenceTag.PERMIT_SIGNATURE] else []) ++
  (if input.signals.highValueNativeTransfer then [EvidenceTag.HIGH_VALUE_NATIVE_TRANSFER] else []) ++
  (if input.signals.reverted then [EvidenceTag.REVERT] else []) ++
  (if input.signals.isMulticall then [EvidenceTag.MULTICALL] else []) ++
  (if (input.signals.knownMethod = none ∨ input.signals.knownMethod = some []) ∧
      ¬ input.signals.reverted ∧
      input.signals.approvals.length = 0 ∧ ¬ input.signals.isMulticall ∧
      ¬ input.signals.isPermit then [EvidenceTag.UNKNOWN_METHOD] else []) ++
  (if (match input.evidence with
       | some e => e.tags.contains EvidenceTag.KNOWN_BAD_ADDRESS
       | none => false) then [EvidenceTag.KNOWN_BAD_ADDRESS] else []) ++
  (if (match input.evidence with
       | some e => e.tags.contains EvidenceTag.KNOWN_BAD_CONTRACT
       | none => false) then [EvidenceTag.KNOWN_BAD_CONTRACT] else [])

/-- `selectTemplate` (txSimulator.ts:548-579): fixed priority order, with
the EOA-transfer fallback for `WARNING` verdicts and the safe template
otherwise. -/
def selectTemplate (tags : List EvidenceTag) (input : WarningInput) : CompliantMessage :=
  if tags.contains EvidenceTag.KNOWN_BAD_ADDRESS ∨ tags.contains EvidenceTag.KNOWN_BAD_CONTRACT then
    buildKnownBadAddressMessage input
  else if tags.contains EvidenceTag.UNLIMITED_APPROVAL then
    buildUnlimitedApprovalMessage input
  else if tags.contains EvidenceTag.PERMIT_SIGNATURE then
    buildPermitMessage input
  else if tags.contains EvidenceTag.REVERT then
    buildRevertMessage input
  else if tags.contains EvidenceTag.HIGH_VALUE_NATIVE_TRANSFER then
    buildHighValueTransferMessage input
  else if tags.contains EvidenceTag.MULTICALL then
    buildMulticallMessage input
  else if tags.contains EvidenceTag.UNKNOWN_METHOD then
    buildUnknownMethodMessage input
  else if tags.contains EvidenceTag.LIMITED_APPROVAL then
    buildLimitedApprovalMessage input
  else if input.verdict = Verdict.WARNING then
    buildEoaTransferMessage input
  else
    buildSafeMessage input

/-- `enforceConstraints` (txSimulator.ts:583-592).  Confidence is a natural
number in this embedding, so `Math.max(0, ·)` is the identity. -/
def enforceConstraints (msg : CompliantMessage) : CompliantMessage :=
  { severity := msg.severity
  , title := msg.title.take 40
  , summary := msg.summary.take 200
  , details := msg.details.take 4
  , recommendation := msg.recommendation
  , confidence := Nat.min 100 msg.confidence }

/-- `buildCompliantWarning` (txSimulator.ts:596-609): tags, template,
constraints, then a final sanitization pass over all text fields. -/
def buildCompliantWarning (input : WarningInput) : CompliantMessage :=
  let tags := detectTags input
  let raw := selectTemplate tags input
  let constrained := enforceConstraints raw
  { severity := constrained.severity
  , title := sanitizeLanguage constrained.title
  , summary := sanitizeLanguage constrained.summary
  , details := constrained.details.map sanitizeLanguage
  , recommendation := sanitizeLanguage constrained.recommendation
  , confidence := constrained.confidence }

/-! ### A binary64 model for the threshold conversion of `isHighValueNative`

`isHighValueNative` (txSignals.ts:156-165) converts its configurable
threshold with `BigInt(Math.floor(thresholdEth * 1e18))`, a double-
precision (binary64) multiplication.  For an integer threshold `t` that is
itself exactly representable in binary64, `t * 1e18` is the exact integer
`t·10^18` rounded once to the nearest binary64 value (ties to even); that
result is an integral double, so `Math.floor` and `BigInt` preserve it
exactly.  The rounding of a positive integer to binary64 is embedded below
(the exponent range of binary64 is irrelevant at these magnitudes — no
overflow below `2^1024` — and subnormals do not arise for integers). -/

/-- Fuel-driven floor of `log₂` (the fuel, instantiated with the argument
itself, dominates the number of halvings and only serves termination). -/
def ilog2Aux : Nat → Nat → Nat
  | 0, _ => 0
  | fuel + 1, n => if n < 2 then 0 else ilog2Aux fuel (n / 2) + 1

/-- Floor of `log₂ n` (0 for `n = 0`). -/
def ilog2 (n : Nat) : Nat :=
  ilog2Aux n n

/-- Round a nonnegative integer to the nearest binary64 value (ties to
even), as a natural number: integers below `2^53` are exact; above, the
value is rounded to a multiple of `2^(⌊log₂ n⌋ - 52)`. -/
def roundDoubleNat (n : Nat) : Nat :=
  if n < 2 ^ 53 then n
  else
    let k := ilog2 n - 52
    let q := n / 2 ^ k
    let r := n % 2 ^ k
    let half := 2 ^ (k - 1)
    if r > half ∨ (r = half ∧ q % 2 = 1) then (q + 1) * 2 ^ k else q * 2 ^ k

/-- Exact representability of an integer in binary64: a 53-bit significand
times a power of two. -/
def isRepresentableB64 (t : Nat) : Prop :=
  ∃ m e : Nat, m < 2 ^ 53 ∧ t = m * 2 ^ e

/-- The threshold-to-wei conversion `BigInt(Math.floor(thresholdEth *
1e18))` of `isHighValueNative`, for an exactly representable integer
threshold `t`: the real product `t·10^18` rounded once to binary64. -/
def jsThresholdWei (t : Nat) : Nat :=
  roundDoubleNat (t * 10 ^ 18)

/-- The wei comparison `wei >= thresholdWei` of `isHighValueNative` with
its threshold converted as the source converts it. -/
def highValueCheckCode (thresholdEth wei : Nat) : Bool :=
  decide (wei ≥ jsThresholdWei thresholdEth)

/-- The same comparison with the threshold converted by exact integer
scaling, as the specification describes it ("converted to the integer base
unit via exact scaling (multiply by 10^18)"). -/
def highValueCheckSpec (thresholdEth wei : Nat) : Bool :=
  decide (wei ≥ thresholdEth * 10 ^ 18)

/-! ### Claim-side definitions

The definitions below are written from the specification's words, for
comparison against the embeddings above. -/

/-- Zero-padded big-endian hex digits of `n`, `width` digits wide (the
32-byte words of a synthetic ABI payload). -/
def toHexDigitsPadded : Nat → Nat → List Char
  | 0, _ => []
  | width + 1, n => toHexDigitsPadded width (n / 16) ++ [Nat.digitChar (n % 16)]

/-- Hex encoding of a byte list, two lower-case digits per byte. -/
def bytesToHex (bs : List Nat) : List Char :=
  bs.flatMap (fun b => [Nat.digitChar (b / 16 % 16), Nat.digitChar (b % 16)])

/-- The synthetic `Error(string)` revert payload of the specification:
selector `08c379a2`, a 32-byte offset word (`0x20`), a 32-byte length word,
then the UTF-8 bytes of `s` (for ASCII `s`, its code points). -/
def encodeErrorPayload (s : List Char) : List Char :=
  "0x08c379a2".toList ++ toHexDigitsPadded 64 0x20 ++
    toHexDigitsPadded 64 s.length ++ bytesToHex (s.map Char.toNat)

/-- Severity rank of a verdict (`SAFE < WARNING < DANGER`). -/
def sevRank : Verdict → Nat
  | Verdict.SAFE => 0
  | Verdict.WARNING => 1
  | Verdict.DANGER => 2

/-- Maximum of two verdicts in the severity order. -/
def maxVerdict (a b : Verdict) : Verdict :=
  if sevRank a < sevRank b then b else a

/-- The maximum severity among a list of fired rules (specification:
"the verdict is the maximum severity among fired rules"). -/
def specMaxSeverity (results : List RuleResult) : Verdict :=
  results.foldr (fun r v => maxVerdict r.verdict v) Verdict.SAFE

/-- The first rule, in evaluation order, attaining the maximal confidence:
a left scan replacing the candidate only on strictly higher confidence
(specification: "the reason text of the rule with the highest confidence …
ties broken by original evaluation order, first rule evaluated wins"). -/
def firstMaxByConfidence (results : List RuleResult) : RuleResult :=
  results.foldl (fun best r => if r.confidence > best.confidence then r else best)
    results.headI

/-- The aggregation described by the specification: `SAFE`/70 with the
canned reasons when nothing fired; otherwise the maximum severity, the
maximum confidence among fired rules at that severity, the reason of the
first-evaluated rule attaining it, and every fired rule's reason in
evaluation order. -/
def specAssessRisk (results : List RuleResult) : RiskAssessment :=
  if results = [] then
    { verdict := Verdict.SAFE
    , confidence := 70
    , summary := "No suspicious patterns detected in this transaction.".toList
    , reasons := ["No revert detected".toList, "No dangerous approval patterns".toList,
                  "Known or benign method".toList] }
  else
    let verdict := specMaxSeverity results
    let atVerdict := results.filter (fun r => r.verdict == verdict)
    { verdict := verdict
    , confidence := atVerdict.foldl (fun m r => Nat.max m r.confidence) 0
    , summary := (firstMaxByConfidence atVerdict).reason
    , reasons := results.map (fun r => r.reason) }

/-! ### Concrete fixtures shared by several scenario theorems -/

/-- A fixture sender address. -/
def addrA : List Char := "0xaaaaaaaaaaaaaaaaaaaaaaaaaaaaaaaaaaaaaaaa".toList

/-- A fixture recipient / token address. -/
def addrB : List Char := "0xbbbbbbbbbbbbbbbbbbbbbbbbbbbbbbbbbbbbbbbb".toList

/-- A fixture externally-owned recipient address. -/
def addrC : List Char := "0xcccccccccccccccccccccccccccccccccccccccc".toList

/-- Calldata of `approve(spender, 2^256 - 1)`: the `approve` selector, the
spender right-aligned in the first 32-byte word, and an all-`f` second
word. -/
def approveUnlimitedCalldata (spender : List Char) : List Char :=
  "0x095ea7b3".toList ++ List.replicate 24 '0' ++ spender ++ List.replicate 64 'f'

/-- A fixture 40-hex-digit spender. -/
def spenderHex : List Char := "00000000000000000000000000000000000000ab".toList

/-- The C6 scenario: 0.05 ETH (`0xb1a2bc2ec50000` wei, below the 0.25
threshold) sent to an externally owned account with empty calldata, the
simulation succeeding. -/
def plainTransferAssessment : RiskAssessment :=
  assessRisk { success := true, returnData := some "0x".toList, revertReason := none }
    (extractSignals addrA addrC "0x".toList (some "0xb1a2bc2ec50000".toList) none)
    true "0x".toList (some "0xb1a2bc2ec50000".toList)

/-! ### The claims -/

/-- C2: for every approval-amount string that represents an unsigned
integer `n`, `isUnlimitedApproval` returns `true` exactly when `n ≥ 2^255`
or `n = 2^256 - 1`. -/
theorem claim2_unlimited_iff_threshold (s : List Char) (n : Nat)
    (h : bigIntOfDec s = some n) :
    (isUnlimitedApproval s = true) ↔ (n ≥ 2 ^ 255 ∨ n = 2 ^ 256 - 1) := by
  unfold isUnlimitedApproval
  rw [h]
  simp [HIGH_APPROVAL_THRESHOLD, MAX_UINT256]

/-- Witness for C2 at the amount `2^255`. -/
theorem claim2_unlimited_iff_threshold_witness :
    (isUnlimitedApproval (natToDecStr (2 ^ 255)) = true) ↔
      (2 ^ 255 ≥ 2 ^ 255 ∨ 2 ^ 255 = 2 ^ 256 - 1) :=
  claim2_unlimited_iff_threshold (natToDecStr (2 ^ 255)) (2 ^ 255) (by decide)

/-- C4: the sanitizer leaves `"guarantees"` unchanged (its pattern
`\bguaranteed?\b` requires a word boundary after the stem) while the audit
predicate `/\bguarantee/i` flags it, so sanitized text — including actual
builder output interpolating a revert reason — can still contain forbidden
language, contradicting the intended post-condition of the sanitizer. -/
theorem claim4_sanitizer_audit_mismatch :
    sanitizeLanguage "guarantees".toList = "guarantees".toList ∧
    containsForbiddenLanguage (sanitizeLanguage "guarantees".toList) = true ∧
    ((buildCompliantWarning
      { verdict := Verdict.WARNING
      , confidence := 70
      , signals :=
        { unlimitedApproval := false, approvals := [], spenderIsContract := none
        , knownMethod := none, highValueNativeTransfer := false
        , reverted := true, revertReason := some "guarantees profit".toList
        , isPermit := false, isMulticall := false }
      , evidence := none }).details.any containsForbiddenLanguage) = true := by
  refine ⟨by decide, by decide, by decide⟩

/-- C5, counterexample: the synthetic `Error(string)` payload for the
empty string decodes to `null`, not `""` — the decoder requires a strictly
positive length word. -/
theorem claim5_empty_string_not_roundtripped :
    decodeRevertReason (encodeErrorPayload []) = none := by decide

/-- C6, counterexample: the 0.05-ETH plain transfer to an account is not
assessed `SAFE`/70 — the direct-EOA-transfer rule fires. -/
theorem claim6_plain_transfer_not_safe :
    ¬ (plainTransferAssessment.verdict = Verdict.SAFE ∧
       plainTransferAssessment.confidence = 70) := by decide

/-- C6, amended: the 0.05-ETH plain transfer to an account is assessed
`WARNING` with confidence 30 by the direct-EOA-transfer rule. -/
theorem claim6_plain_transfer_warning_30 :
    plainTransferAssessment.verdict = Verdict.WARNING ∧
    plainTransferAssessment.confidence = 30 ∧
    plainTransferAssessment.summary =
      "Direct ETH transfer to an externally owned account. Verify the recipient.".toList := by
  refine ⟨by decide, by decide, by decide⟩

/-- C7: whenever the simulation failed, the revert rule fires — with
`DANGER`/85 when the effective reason matches the dangerous pattern
(insufficient balance/allowance, failed or reverted execution) and
`WARNING`/70 otherwise; in particular a revert payload decoding to
"insufficient allowance" is scored `DANGER`/85. -/
theorem claim7_revert_rule (res : EthCallResult) (h : res.success = false) :
    ruleRevert res = some
      { verdict := if dangerousRevertPattern (effectiveRevertReason res)
          then Verdict.DANGER else Verdict.WARNING
      , confidence := if dangerousRevertPattern (effectiveRevertReason res) then 85 else 70
      , reason := "Transaction would revert: ".toList ++ effectiveRevertReason res } ∧
    decodeRevertReason (encodeErrorPayload "insufficient allowance".toList) =
      some "insufficient allowance".toList ∧
    ruleRevert { success := false, returnData := none
               , revertReason := some "insufficient allowance".toList } =
      some { verdict := Verdict.DANGER, confidence := 85
           , reason := "Transaction would revert: insufficient allowance".toList } := by
  refine ⟨?_, by decide, by decide⟩
  simp [ruleRevert, h]

/-- Witness for C7 at the "insufficient allowance" revert. -/
theorem claim7_revert_rule_witness :
    ruleRevert { success := false, returnData := none
               , revertReason := some "insufficient allowance".toList } =
      some { verdict := Verdict.DANGER, confidence := 85
           , reason := "Transaction would revert: insufficient allowance".toList } :=
  (claim7_revert_rule
    { success := false, returnData := none
    , revertReason := some "insufficient allowance".toList } rfl).2.2

/-- C8: when the spender probe fails (`getCode` resolves `null` on
timeout or a missing endpoint), a decoded unlimited approval leaves
`spenderIsContract` unknown and the unlimited-approval rule still fires at
the unknown-spender tier, `DANGER`/85. -/
theorem claim8_probe_failure_unknown_tier (data tokenAddr fromAddr : List Char)
    (value : Option (List Char)) (ap : ApprovalSignal)
    (hap : parseApproval data tokenAddr fromAddr = some ap)
    (hun : isUnlimitedApproval ap.amount = true) :
    (extractSignals fromAddr tokenAddr data value none).spenderIsContract = none ∧
    (extractSignals fromAddr tokenAddr data value none).unlimitedApproval = true ∧
    ruleUnlimitedApproval (extractSignals fromAddr tokenAddr data value none) =
      some { verdict := Verdict.DANGER, confidence := 85
           , reason := "Unlimited token approval detected for spender ".toList ++
               ap.spender ++ ['.'] } := by
  have h1 : (extractSignals fromAddr tokenAddr data value none).spenderIsContract = none := by
    simp [extractSignals, hap]
  have h2 : (extractSignals fromAddr tokenAddr data value none).unlimitedApproval = true := by
    simp [extractSignals, hap, hun]
  have h3 : (extractSignals fromAddr tokenAddr data value none).approvals = [ap] := by
    simp [extractSignals, hap]
  refine ⟨h1, h2, ?_⟩
  simp [ruleUnlimitedApproval, h1, h2, h3]

/-- Witness for C8 at a concrete unlimited `approve` calldata. -/
theorem claim8_probe_failure_unknown_tier_witness :
    (extractSignals addrA addrB (approveUnlimitedCalldata spenderHex) none none).spenderIsContract = none ∧
    (extractSignals addrA addrB (approveUnlimitedCalldata spenderHex) none none).unlimitedApproval = true ∧
    ruleUnlimitedApproval (extractSignals addrA addrB (approveUnlimitedCalldata spenderHex) none none) =
      some { verdict := Verdict.DANGER, confidence := 85
           , reason := "Unlimited token approval detected for spender ".toList ++
               ('0' :: 'x' :: spenderHex) ++ ['.'] } :=
  claim8_probe_failure_unknown_tier (approveUnlimitedCalldata spenderHex) addrB addrA none
    { token := addrB, owner := addrA, spender := '0' :: 'x' :: spenderHex
    , amount := natToDecStr (2 ^ 256 - 1) } (by decide) (by decide)

/-- C1: for any transaction whose calldata is `approve(spender, 2^256-1)`
with a spender classified as a contract by the `getCode` probe and a
non-reverting simulation, the engine returns `DANGER` with confidence 90,
and the compliant message built from that assessment has severity `HIGH`
and title "Unlimited approval request". -/
theorem claim1_unlimited_approval_pipeline
    (spender tokenAddr fromAddr code : List Char) (res : EthCallResult)
    (hsp : spender.length = 40)
    (hcode : code ≠ "0x".toList ∧ code ≠ "0x0".toList ∧ code.length > 2)
    (hres : res.success = true) :
    (assessRisk res
        (extractSignals fromAddr tokenAddr (approveUnlimitedCalldata spender)
          (some "0x0".toList) (some code))
        false (approveUnlimitedCalldata spender) (some "0x0".toList)).verdict =
      Verdict.DANGER ∧
    (assessRisk res
        (extractSignals fromAddr tokenAddr (approveUnlimitedCalldata spender)
          (some "0x0".toList) (some code))
        false (approveUnlimitedCalldata spender) (some "0x0".toList)).confidence = 90 ∧
    (buildCompliantWarning
      { verdict := Verdict.DANGER
      , confidence := 90
      , signals :=
        { unlimitedApproval :=
            (extractSignals fromAddr tokenAddr (approveUnlimitedCalldata spender)
              (some "0x0".toList) (some code)).unlimitedApproval
        , approvals :=
            ((extractSignals fromAddr tokenAddr (approveUnlimitedCalldata spender)
              (some "0x0".toList) (some code)).approvals).map
              (fun a => { spender := a.spender, amount := a.amount })
        , spenderIsContract :=
            (extractSignals fromAddr tokenAddr (approveUnlimitedCalldata spender)
              (some "0x0".toList) (some code)).spenderIsContract
        , knownMethod :=
            (extractSignals fromAddr tokenAddr (approveUnlimitedCalldata spender)
              (some "0x0".toList) (some code)).knownMethod
        , highValueNativeTransfer :=
            (extractSignals fromAddr tokenAddr (approveUnlimitedCalldata spender)
              (some "0x0".toList) (some code)).highValueNativeTransfer
        , reverted := !res.success
        , revertReason := res.revertReason
        , isPermit :=
            (extractSignals fromAddr tokenAddr (approveUnlimitedCalldata spender)
              (some "0x0".toList) (some code)).isPermit
        , isMulticall :=
            (extractSignals fromAddr tokenAddr (approveUnlimitedCalldata spender)
              (some "0x0".toList) (some code)).isMulticall }
      , evidence := none }).severity = Severity.HIGH ∧
    (buildCompliantWarning
      { verdict := Verdict.DANGER
      , confidence := 90
      , signals :=
        { unlimitedApproval :=
            (extractSignals fromAddr tokenAddr (approveUnlimitedCalldata spender)
              (some "0x0".toList) (some code)).unlimitedApproval
        , approvals :=
            ((extractSignals fromAddr tokenAddr (approveUnlimitedCalldata spender)
              (some "0x0".toList) (some code)).approvals).map
              (fun a => { spender := a.spender, amount := a.amount })
        , spenderIsContract :=
            (extractSignals fromAddr tokenAddr (approveUnlimitedCalldata spender)
              (some "0x0".toList) (some code)).spenderIsContract
        , knownMethod :=
            (extractSignals fromAddr tokenAddr (approveUnlimitedCalldata spender)
              (some "0x0".toList) (some code)).knownMethod
        , highValueNativeTransfer :=
            (extractSignals fromAddr tokenAddr (approveUnlimitedCalldata spender)
              (some "0x0".toList) (some code)).highValueNativeTransfer
        , reverted := !res.success
        , revertReason := res.revertReason
        , isPermit :=
            (extractSignals fromAddr tokenAddr (approveUnlimitedCalldata spender)
              (some "0x0".toList) (some code)).isPermit
        , isMulticall :=
            (extractSignals fromAddr tokenAddr (approveUnlimitedCalldata spender)
              (some "0x0".toList) (some code)).isMulticall }
      , evidence := none }).title = "Unlimited approval request".toList := by
  have hlen : (approveUnlimitedCalldata spender).length = 138 := by
    simp [approveUnlimitedCalldata, hsp]
  have hsel : getSelector (approveUnlimitedCalldata spender) = some "0x095ea7b3".toList := by
    unfold getSelector
    rw [if_neg (fun h => by
      rcases h with h | h
      · rw [h] at hlen; simp at hlen
      · omega)]
    have h10 : jsSlice (approveUnlimitedCalldata spender) 0 10 = "0x095ea7b3".toList := by
      unfold jsSlice approveUnlimitedCalldata
      simp only [List.drop_zero, Nat.sub_zero, List.append_assoc]
      exact List.take_left' (by decide)
    rw [h10]
    decide
  have h34 : jsSlice (approveUnlimitedCalldata spender) 34 74 = spender := by
    have hre : approveUnlimitedCalldata spender =
        ("0x095ea7b3".toList ++ List.replicate 24 '0') ++ (spender ++ List.replicate 64 'f') := by
      simp [approveUnlimitedCalldata]
    rw [hre]
    unfold jsSlice
    rw [List.drop_left' (by decide)]
    exact List.take_left' hsp
  have h74 : jsSlice (approveUnlimitedCalldata spender) 74 138 = List.replicate 64 'f' := by
    have hre : approveUnlimitedCalldata spender =
        ("0x095ea7b3".toList ++ List.replicate 24 '0' ++ spender) ++ List.replicate 64 'f' := by
      simp [approveUnlimitedCalldata]
    rw [hre]
    unfold jsSlice
    rw [List.drop_left' (by simp [hsp])]
    simp
  have happrove : parseApproval (approveUnlimitedCalldata spender) tokenAddr fromAddr =
      some { token := jsToLower tokenAddr, owner := jsToLower fromAddr
           , spender := '0' :: 'x' :: jsToLower spender
           , amount := natToDecStr (2 ^ 256 - 1) } := by
    unfold parseApproval
    rw [hsel]
    simp only [if_neg (by decide : ¬ "0x095ea7b3".toList ≠ "0x095ea7b3".toList)]
    rw [if_neg (by simp [hlen]), h74, h34]
    rw [show bigIntOfHex (List.replicate 64 'f') = some (2 ^ 256 - 1) by decide]
  have hnotransfer : parseTransfer (approveUnlimitedCalldata spender) tokenAddr fromAddr = none := by
    unfold parseTransfer
    rw [hsel]
    simp only [eq_false (by decide : "0x095ea7b3".toList ≠ "0xa9059cbb".toList),
      eq_false (by decide : "0x095ea7b3".toList ≠ "0x23b872dd".toList), false_and, if_false]
  have hsigs : extractSignals fromAddr tokenAddr (approveUnlimitedCalldata spender)
      (some "0x0".toList) (some code) =
      { knownMethod := some "approve(address,uint256)".toList
      , approvals := [{ token := jsToLower tokenAddr, owner := jsToLower fromAddr
                      , spender := '0' :: 'x' :: jsToLower spender
                      , amount := natToDecStr (2 ^ 256 - 1) }]
      , erc20Transfers := []
      , unlimitedApproval := true
      , spenderIsContract := some true
      , isPermit := false
      , isMulticall := false
      , highValueNativeTransfer := false } := by
    have hkm : identifyMethod (approveUnlimitedCalldata spender) =
        some "approve(address,uint256)".toList := by
      unfold identifyMethod
      rw [hsel]
      decide
    have hc : decide (code ≠ "0x".toList ∧ code ≠ "0x0".toList ∧ code.length > 2) = true := by
      rw [decide_eq_true_eq]; exact hcode
    have hu : isUnlimitedApproval (natToDecStr (2 ^ 256 - 1)) = true := by decide
    have hp : isPermitSelector (some "0x095ea7b3".toList) = false := by decide
    have hm : isMulticallSelector (some "0x095ea7b3".toList) = false := by decide
    have hh : isHighValueNative (some "0x0".toList) = false := by decide
    simp only [extractSignals, happrove, hnotransfer, hsel, hkm, hc, hu, hp, hm, hh]
  rw [hsigs]
  have hfired : firedRules res
      { knownMethod := some "approve(address,uint256)".toList
      , approvals := [{ token := jsToLower tokenAddr, owner := jsToLower fromAddr
                      , spender := '0' :: 'x' :: jsToLower spender
                      , amount := natToDecStr (2 ^ 256 - 1) }]
      , erc20Transfers := []
      , unlimitedApproval := true
      , spenderIsContract := some true
      , isPermit := false
      , isMulticall := false
      , highValueNativeTransfer := false }
      false (approveUnlimitedCalldata spender) (some "0x0".toList) =
      [{ verdict := Verdict.DANGER, confidence := 90
       , reason := "Unlimited token approval to contract ".toList ++
           ('0' :: 'x' :: jsToLower spender) ++
           ". This grants the contract full access to spend your tokens.".toList }] := by
    unfold firedRules ruleRevert ruleUnlimitedApproval ruleLimitedApproval rulePermit
      ruleHighValueTransfer ruleUnknownMethod ruleDirectEOATransfer ruleMulticall
    simp [hres, List.headI]
  rw [hres]
  have hgen : ∀ inp : WarningInput, detectTags inp = [EvidenceTag.UNLIMITED_APPROVAL] →
      (buildCompliantWarning inp).severity = Severity.HIGH ∧
      (buildCompliantWarning inp).title = "Unlimited approval request".toList := by
    intro inp htags
    simp only [buildCompliantWarning, htags]
    rw [show selectTemplate [EvidenceTag.UNLIMITED_APPROVAL] inp =
        buildUnlimitedApprovalMessage inp from by
      unfold selectTemplate
      rw [if_neg (by decide), if_pos (by decide)]]
    refine ⟨rfl, ?_⟩
    exact (by decide :
      sanitizeLanguage ("Unlimited approval request".toList.take 40) =
        "Unlimited approval request".toList)
  refine ⟨?_, ?_, ?_, ?_⟩
  · unfold assessRisk
    rw [hfired]
    simp [sortDesc, insertDesc]
  · unfold assessRisk
    rw [hfired]
    simp [sortDesc, insertDesc]
  · exact (hgen _ (by simp [detectTags])).1
  · exact (hgen _ (by simp [detectTags])).2

/-- Witness for C1 at a concrete spender, token, owner, contract code and
successful simulation result. -/
theorem claim1_unlimited_approval_pipeline_witness :
    (assessRisk { success := true, returnData := some "0x".toList, revertReason := none }
        (extractSignals addrA addrB (approveUnlimitedCalldata spenderHex)
          (some "0x0".toList) (some "0x6080".toList))
        false (approveUnlimitedCalldata spenderHex) (some "0x0".toList)).verdict =
      Verdict.DANGER ∧
    (assessRisk { success := true, returnData := some "0x".toList, revertReason := none }
        (extractSignals addrA addrB (approveUnlimitedCalldata spenderHex)
          (some "0x0".toList) (some "0x6080".toList))
        false (approveUnlimitedCalldata spenderHex) (some "0x0".toList)).confidence = 90 :=
  ⟨(claim1_unlimited_approval_pipeline spenderHex addrB addrA "0x6080".toList
      { success := true, returnData := some "0x".toList, revertReason := none }
      (by decide) (by decide) rfl).1,
   (claim1_unlimited_approval_pipeline spenderHex addrB addrA "0x6080".toList
      { success := true, returnData := some "0x".toList, revertReason := none }
      (by decide) (by decide) rfl).2.1⟩

/-! ### Aggregation lemmas for the risk engine -/

/-- Inserting never yields the empty list. -/
theorem insertDesc_ne_nil (x : RuleResult) (l : List RuleResult) : insertDesc x l ≠ [] := by
  cases l with
  | nil => simp [insertDesc]
  | cons y ys =>
    unfold insertDesc
    split <;> simp

/-- The left fold that keeps the first element of maximal confidence
satisfies the recurrence of a head-insertion into a descending sort. -/
theorem foldl_pick_cons (ys : List RuleResult) : ∀ x y : RuleResult,
    List.foldl (fun best r => if r.confidence > best.confidence then r else best) x (y :: ys) =
      if (List.foldl (fun best r => if r.confidence > best.confidence then r else best) y ys).confidence ≤
          x.confidence
      then x
      else List.foldl (fun best r => if r.confidence > best.confidence then r else best) y ys := by
  induction ys with
  | nil =>
    intro x y
    simp only [List.foldl_cons, List.foldl_nil]
    split_ifs <;> first | rfl | omega
  | cons z zs ih =>
    intro x y
    simp only [List.foldl_cons] at ih ⊢
    rw [ih, ih]
    split_ifs <;> first | rfl | omega

/-- The head of the stable descending sort is the first element, in
original order, of maximal confidence. -/
theorem headI_sortDesc : ∀ l : List RuleResult, l ≠ [] →
    (sortDesc l).headI = firstMaxByConfidence l := by
  have key : ∀ (xs : List RuleResult) (x : RuleResult),
      (sortDesc (x :: xs)).headI =
        List.foldl (fun best r => if r.confidence > best.confidence then r else best) x xs := by
    intro xs
    induction xs with
    | nil => intro x; rfl
    | cons y ys ih =>
      intro x
      have hne : sortDesc (y :: ys) ≠ [] := insertDesc_ne_nil y (sortDesc ys)
      obtain ⟨z, t, hzt⟩ := List.exists_cons_of_ne_nil hne
      have hz : z = List.foldl (fun best r => if r.confidence > best.confidence then r else best) y ys := by
        have := ih y
        rw [hzt] at this
        simpa using this
      show (insertDesc x (sortDesc (y :: ys))).headI = _
      rw [hzt]
      unfold insertDesc
      rw [foldl_pick_cons, ← hz]
      split_ifs <;> simp_all
  intro l hl
  obtain ⟨x, xs, rfl⟩ := List.exists_cons_of_ne_nil hl
  rw [key xs x]
  unfold firstMaxByConfidence
  simp [List.headI, List.foldl_cons]

/-- The specification's severity maximum coincides with the source's
`hasDanger` / `hasWarning` case split. -/
theorem specMaxSeverity_eq_any (l : List RuleResult) :
    specMaxSeverity l =
      (if l.any (fun r => r.verdict == Verdict.DANGER) then Verdict.DANGER
       else if l.any (fun r => r.verdict == Verdict.WARNING) then Verdict.WARNING
       else Verdict.SAFE) := by
  induction l with
  | nil => rfl
  | cons r t ih =>
    have hstep : specMaxSeverity (r :: t) = maxVerdict r.verdict (specMaxSeverity t) := rfl
    rw [hstep, ih]
    cases hv : r.verdict <;>
      cases h1 : t.any (fun x => x.verdict == Verdict.DANGER) <;>
        cases h2 : t.any (fun x => x.verdict == Verdict.WARNING) <;>
          simp [maxVerdict, sevRank, List.any_cons, hv, h1, h2]

/-- The fired rules at the winning severity are never empty. -/
theorem filter_at_verdict_ne_nil (l : List RuleResult) (h : l ≠ []) :
    l.filter (fun r => r.verdict ==
      (if l.any (fun r => r.verdict == Verdict.DANGER) then Verdict.DANGER
       else if l.any (fun r => r.verdict == Verdict.WARNING) then Verdict.WARNING
       else Verdict.SAFE)) ≠ [] := by
  by_cases h1 : l.any (fun r => r.verdict == Verdict.DANGER) = true
  · obtain ⟨r, hr, hp⟩ := List.any_eq_true.mp h1
    simp only [h1, if_true]
    intro hnil
    have := List.filter_eq_nil_iff.mp hnil r hr
    simp_all
  · by_cases h2 : l.any (fun r => r.verdict == Verdict.WARNING) = true
    · obtain ⟨r, hr, hp⟩ := List.any_eq_true.mp h2
      simp only [h1, h2, if_true, if_false]
      intro hnil
      have := List.filter_eq_nil_iff.mp hnil r hr
      simp_all
    · have e1 : l.any (fun r => r.verdict == Verdict.DANGER) = false := by
        rw [← Bool.not_eq_true]; exact h1
      have e2 : l.any (fun r => r.verdict == Verdict.WARNING) = false := by
        rw [← Bool.not_eq_true]; exact h2
      have hall : ∀ r ∈ l, (r.verdict ==
          (if l.any (fun r => r.verdict == Verdict.DANGER) then Verdict.DANGER
           else if l.any (fun r => r.verdict == Verdict.WARNING) then Verdict.WARNING
           else Verdict.SAFE)) = true := by
        intro r hr
        have hs : r.verdict = Verdict.SAFE := by
          cases hv : r.verdict
          · rfl
          · exact absurd (List.any_eq_true.mpr ⟨r, hr, by simp [hv]⟩) h2
          · exact absurd (List.any_eq_true.mpr ⟨r, hr, by simp [hv]⟩) h1
        simp [hs, e1, e2]
      rw [List.filter_eq_self.mpr hall]
      exact h

/-- C3: `assessRisk` implements exactly the aggregation the specification
describes — `SAFE`/70 with canned reasons when no rule fires, and otherwise
the maximum severity among fired rules, the maximum confidence at that
severity, the reason of the first-evaluated rule attaining it (ties broken
by evaluation order), and all fired reasons in evaluation order. -/
theorem claim3_aggregation (res : EthCallResult) (signals : TxSignals)
    (toIsEOA : Bool) (data : List Char) (value : Option (List Char)) :
    assessRisk res signals toIsEOA data value =
      specAssessRisk (firedRules res signals toIsEOA data value) := by
  unfold assessRisk specAssessRisk
  by_cases hnil : firedRules res signals toIsEOA data value = []
  · simp [hnil]
  · obtain ⟨x, xs, hcons⟩ := List.exists_cons_of_ne_nil hnil
    rw [hcons, specMaxSeverity_eq_any]
    simp only [List.isEmpty_cons, Bool.false_eq_true, if_false]
    have hfilter := filter_at_verdict_ne_nil (x :: xs) (by simp)
    rw [headI_sortDesc _ hfilter]
    simp

/-! ### Round-trip lemmas for the synthetic `Error(string)` payload -/

/-- For a hex digit value, `Nat.digitChar` yields a hex digit of the same
value, and never the letter of a `0x` prefix. -/
theorem digitChar_facts : ∀ d : Nat, d < 16 →
    isHexDigit (Nat.digitChar d) = true ∧ hexVal (Nat.digitChar d) = d ∧
    Nat.digitChar d ≠ 'x' ∧ Nat.digitChar d ≠ 'X' := by decide

/-- Width of a padded hex word. -/
theorem toHexDigitsPadded_length (w : Nat) : ∀ n, (toHexDigitsPadded w n).length = w := by
  induction w with
  | zero => intro n; rfl
  | succ w ih => intro n; simp [toHexDigitsPadded, ih]

/-- Every character of a padded hex word is a hex digit. -/
theorem toHexDigitsPadded_all_hex (w : Nat) : ∀ n, ∀ c ∈ toHexDigitsPadded w n,
    isHexDigit c = true := by
  induction w with
  | zero => intro n c hc; simp [toHexDigitsPadded] at hc
  | succ w ih =>
    intro n c hc
    simp only [toHexDigitsPadded, List.mem_append, List.mem_singleton] at hc
    rcases hc with hc | hc
    · exact ih _ _ hc
    · exact hc ▸ (digitChar_facts _ (Nat.mod_lt _ (by norm_num))).1

/-- Parsing the padded hex word of `n < 16^w` recovers `n`. -/
theorem hexDigitsToNat_toHexDigitsPadded (w : Nat) : ∀ n, n < 16 ^ w →
    hexDigitsToNat (toHexDigitsPadded w n) = n := by
  induction w with
  | zero =>
    intro n h
    have : n = 0 := by simpa using h
    subst this
    rfl
  | succ w ih =>
    intro n h
    have hdiv : n / 16 < 16 ^ w := by
      rw [pow_succ] at h
      omega
    unfold toHexDigitsPadded hexDigitsToNat
    rw [List.foldl_append]
    have hrec := ih (n / 16) hdiv
    unfold hexDigitsToNat at hrec
    rw [hrec]
    simp only [List.foldl_cons, List.foldl_nil]
    rw [(digitChar_facts (n % 16) (Nat.mod_lt _ (by norm_num))).2.1]
    omega

/-- `parseInt(·, 16)` on the padded hex word of `n < 16^64` yields `n`:
every character is a hex digit and none of them can form a `0x` prefix. -/
theorem parseIntHex_toHexDigitsPadded (n : Nat) (h : n < 16 ^ 64) :
    parseIntHex (toHexDigitsPadded 64 n) = some n := by
  have hall := toHexDigitsPadded_all_hex 64 n
  have hlen := toHexDigitsPadded_length 64 n
  have hx : ∀ q : Char, jsStartsWith ['0', q] (toHexDigitsPadded 64 n) = true →
      q ∈ toHexDigitsPadded 64 n := by
    intro q hq
    unfold jsStartsWith at hq
    have htake : (toHexDigitsPadded 64 n).take 2 = ['0', q] := by
      exact beq_iff_eq.mp hq
    have : q ∈ (toHexDigitsPadded 64 n).take 2 := by rw [htake]; simp
    exact List.mem_of_mem_take this
  have hpre : (jsStartsWith ['0', 'x'] (toHexDigitsPadded 64 n) ||
      jsStartsWith ['0', 'X'] (toHexDigitsPadded 64 n)) = false := by
    rw [Bool.or_eq_false_iff]
    constructor
    · cases hq : jsStartsWith ['0', 'x'] (toHexDigitsPadded 64 n)
      · rfl
      · exact absurd (hall _ (hx 'x' hq)) (by decide)
    · cases hq : jsStartsWith ['0', 'X'] (toHexDigitsPadded 64 n)
      · rfl
      · exact absurd (hall _ (hx 'X' hq)) (by decide)
  unfold parseIntHex
  rw [hpre]
  simp only [Bool.false_eq_true, if_false]
  rw [List.takeWhile_eq_self_iff.mpr hall]
  rw [if_neg (by intro hc; rw [hc] at hlen; simp at hlen)]
  rw [hexDigitsToNat_toHexDigitsPadded 64 n h]

/-- Length of the hex encoding of a byte list. -/
theorem bytesToHex_length (bs : List Nat) : (bytesToHex bs).length = 2 * bs.length := by
  induction bs with
  | nil => rfl
  | cons b t ih => simp [bytesToHex] at ih ⊢; omega

/-- Hex-decoding the hex encoding of bytes below 256 recovers them. -/
theorem hexPairsToBytes_bytesToHex (bs : List Nat) (h : ∀ b ∈ bs, b < 256) :
    hexPairsToBytes (bytesToHex bs) = bs := by
  induction bs with
  | nil => rfl
  | cons b t ih =>
    have hb : b < 256 := h b (List.mem_cons_self b t)
    have hhi : b / 16 % 16 < 16 := Nat.mod_lt _ (by norm_num)
    have hlo : b % 16 < 16 := Nat.mod_lt _ (by norm_num)
    have hstep : bytesToHex (b :: t) =
        Nat.digitChar (b / 16 % 16) :: Nat.digitChar (b % 16) :: bytesToHex t := by
      simp [bytesToHex]
    rw [hstep]
    unfold hexPairsToBytes
    rw [if_pos (by
      rw [Bool.and_eq_true]
      exact ⟨(digitChar_facts _ hhi).1, (digitChar_facts _ hlo).1⟩)]
    rw [(digitChar_facts _ hhi).2.1, (digitChar_facts _ hlo).2.1]
    rw [ih (fun x hx => h x (List.mem_cons_of_mem b hx))]
    congr 1
    omega

/-- ASCII bytes decode one character each. -/
theorem utf8DecodeAux_ascii (fuel : Nat) : ∀ bs : List Nat, bs.length ≤ fuel →
    (∀ b ∈ bs, b < 128) → utf8DecodeAux fuel bs = bs.map (fun b => Char.ofNat b) := by
  induction fuel with
  | zero =>
    intro bs hlen _
    have : bs = [] := by
      cases bs
      · rfl
      · simp at hlen
    subst this
    rfl
  | succ f ih =>
    intro bs hlen hb
    cases bs with
    | nil => rfl
    | cons b t =>
      have hblt : b < 128 := hb b (List.mem_cons_self b t)
      unfold utf8DecodeAux
      rw [if_pos hblt]
      rw [ih t (by simpa using Nat.le_of_succ_le_succ hlen)
            (fun x hx => hb x (List.mem_cons_of_mem b hx))]
      rfl

/-- UTF-8 decoding the code points of an ASCII string recovers it. -/
theorem utf8Decode_map_toNat (s : List Char) (h : ∀ c ∈ s, c.toNat < 128) :
    utf8Decode (s.map Char.toNat) = s := by
  unfold utf8Decode
  rw [utf8DecodeAux_ascii _ _ (by simp) (by
    intro b hb
    obtain ⟨c, hc, rfl⟩ := List.mem_map.mp hb
    exact h c hc)]
  rw [List.map_map,
    show ((fun b => Char.ofNat b) ∘ Char.toNat) = id from funext (fun c => Char.ofNat_toNat c),
    List.map_id]

/-- C5, amended: every ASCII string of length 1 to 100 bytes round-trips
through the synthetic `Error(string)` payload and `decodeRevertReason`
(the empty string does not — see the counterexample). -/
theorem claim5_ascii_roundtrip (s : List Char) (hascii : ∀ c ∈ s, c.toNat < 128)
    (hlo : 1 ≤ s.length) (hhi : s.length ≤ 100) :
    decodeRevertReason (encodeErrorPayload s) = some s := by
  have hO : (toHexDigitsPadded 64 0x20).length = 64 := toHexDigitsPadded_length _ _
  have hL : (toHexDigitsPadded 64 s.length).length = 64 := toHexDigitsPadded_length _ _
  have hB : (bytesToHex (s.map Char.toNat)).length = 2 * s.length := by
    rw [bytesToHex_length, List.length_map]
  have hlen : (encodeErrorPayload s).length = 138 + 2 * s.length := by
    simp [encodeErrorPayload, hO, hL, hB]
    omega
  have hstart : jsStartsWith "0x08c379a2".toList (encodeErrorPayload s) = true := by
    unfold jsStartsWith encodeErrorPayload
    rw [show "0x08c379a2".toList ++ toHexDigitsPadded 64 0x20 ++
        toHexDigitsPadded 64 s.length ++ bytesToHex (s.map Char.toNat) =
        "0x08c379a2".toList ++ (toHexDigitsPadded 64 0x20 ++
          (toHexDigitsPadded 64 s.length ++ bytesToHex (s.map Char.toNat))) by
      simp [List.append_assoc]]
    rw [List.take_left' (by decide)]
    decide
  have hslice74 : jsSlice (encodeErrorPayload s) 74 138 = toHexDigitsPadded 64 s.length := by
    unfold jsSlice encodeErrorPayload
    rw [show "0x08c379a2".toList ++ toHexDigitsPadded 64 0x20 ++
        toHexDigitsPadded 64 s.length ++ bytesToHex (s.map Char.toNat) =
        ("0x08c379a2".toList ++ toHexDigitsPadded 64 0x20) ++
          (toHexDigitsPadded 64 s.length ++ bytesToHex (s.map Char.toNat)) by
      simp [List.append_assoc]]
    rw [List.drop_left' (by simp [hO])]
    exact List.take_left' hL
  have hslice138 : jsSlice (encodeErrorPayload s) 138 (138 + s.length * 2) =
      bytesToHex (s.map Char.toNat) := by
    unfold jsSlice encodeErrorPayload
    rw [show "0x08c379a2".toList ++ toHexDigitsPadded 64 0x20 ++
        toHexDigitsPadded 64 s.length ++ bytesToHex (s.map Char.toNat) =
        ("0x08c379a2".toList ++ toHexDigitsPadded 64 0x20 ++ toHexDigitsPadded 64 s.length) ++
          bytesToHex (s.map Char.toNat) by simp [List.append_assoc]]
    rw [List.drop_left' (by simp [hO, hL])]
    rw [show 138 + s.length * 2 - 138 = (bytesToHex (s.map Char.toNat)).length by omega]
    exact List.take_length _
  have hparseL : parseIntHex (toHexDigitsPadded 64 s.length) = some s.length :=
    parseIntHex_toHexDigitsPadded s.length (lt_of_le_of_lt hhi (by norm_num))
  have hge : decide ((encodeErrorPayload s).length ≥ 138) = true :=
    decide_eq_true (by omega)
  unfold decodeRevertReason
  rw [hstart, hge, hslice74, hparseL]
  simp only [Bool.and_self, if_true]
  rw [if_pos (by
    rw [Bool.and_eq_true]
    exact ⟨decide_eq_true hlo, decide_eq_true (by omega)⟩)]
  rw [hslice138]
  rw [hexPairsToBytes_bytesToHex (s.map Char.toNat) (by
    intro b hb
    obtain ⟨c, hc, rfl⟩ := List.mem_map.mp hb
    exact lt_trans (hascii c hc) (by norm_num))]
  rw [utf8Decode_map_toNat s hascii]

/-- Witness for C5 at the three-character ASCII string "abc". -/
theorem claim5_ascii_roundtrip_witness :
    decodeRevertReason (encodeErrorPayload "abc".toList) = some "abc".toList :=
  claim5_ascii_roundtrip "abc".toList (by decide) (by decide) (by decide)

/-! ### C9 — the floating-point threshold conversion -/

/-- `ilog2Aux` with enough fuel is a lower approximation of `log₂`. -/
theorem ilog2Aux_le (fuel : Nat) : ∀ n, 1 ≤ n → n ≤ fuel → 2 ^ ilog2Aux fuel n ≤ n := by
  induction fuel with
  | zero => intro n h1 h2; omega
  | succ f ih =>
    intro n h1 h2
    unfold ilog2Aux
    by_cases h : n < 2
    · rw [if_pos h]; simpa using h1
    · rw [if_neg h]
      have hrec := ih (n / 2) (by omega) (by omega)
      rw [pow_succ]
      omega

/-- Rounding an integer that is exactly representable in binary64 is the
identity: its trailing `ilog₂ n - 52` bits are zero. -/
theorem roundDoubleNat_of_representable (n : Nat) (h : isRepresentableB64 n) :
    roundDoubleNat n = n := by
  obtain ⟨m, e, hm, rfl⟩ := h
  unfold roundDoubleNat
  by_cases hlt : m * 2 ^ e < 2 ^ 53
  · rw [if_pos hlt]
  · rw [if_neg hlt]
    have hn1 : 1 ≤ m * 2 ^ e := by
      rcases Nat.eq_zero_or_pos (m * 2 ^ e) with h0 | h0
      · exfalso; apply hlt; rw [h0]; exact Nat.pos_pow_of_pos _ (by norm_num)
      · exact h0
    have hlog : 2 ^ ilog2 (m * 2 ^ e) ≤ m * 2 ^ e := ilog2Aux_le _ _ hn1 le_rfl
    have hup : m * 2 ^ e < 2 ^ (53 + e) := by
      rw [pow_add]
      exact Nat.mul_lt_mul_of_lt_of_le hm le_rfl (Nat.pos_pow_of_pos _ (by norm_num))
    have hk : ilog2 (m * 2 ^ e) ≤ 52 + e := by
      by_contra hgt
      push_neg at hgt
      have hmono : 2 ^ (53 + e) ≤ 2 ^ ilog2 (m * 2 ^ e) :=
        Nat.pow_le_pow_right (by norm_num) (by omega)
      omega
    have hk' : ilog2 (m * 2 ^ e) - 52 ≤ e := by omega
    have hdvd : 2 ^ (ilog2 (m * 2 ^ e) - 52) ∣ m * 2 ^ e :=
      Dvd.dvd.mul_left (pow_dvd_pow 2 hk') m
    have hr : m * 2 ^ e % 2 ^ (ilog2 (m * 2 ^ e) - 52) = 0 :=
      Nat.mod_eq_zero_of_dvd hdvd
    show (if m * 2 ^ e % 2 ^ (ilog2 (m * 2 ^ e) - 52) > 2 ^ (ilog2 (m * 2 ^ e) - 52 - 1) ∨
        (m * 2 ^ e % 2 ^ (ilog2 (m * 2 ^ e) - 52) = 2 ^ (ilog2 (m * 2 ^ e) - 52 - 1) ∧
          m * 2 ^ e / 2 ^ (ilog2 (m * 2 ^ e) - 52) % 2 = 1)
      then (m * 2 ^ e / 2 ^ (ilog2 (m * 2 ^ e) - 52) + 1) * 2 ^ (ilog2 (m * 2 ^ e) - 52)
      else m * 2 ^ e / 2 ^ (ilog2 (m * 2 ^ e) - 52) * 2 ^ (ilog2 (m * 2 ^ e) - 52)) = m * 2 ^ e
    have hhalf : 0 < 2 ^ (ilog2 (m * 2 ^ e) - 52 - 1) := Nat.pos_pow_of_pos _ (by norm_num)
    rw [if_neg (by rw [hr]; rintro (hc | ⟨hc, -⟩) <;> omega)]
    exact Nat.div_mul_cancel hdvd

/-- C9, counterexample: at the exactly-representable threshold `10^20`
whole units, converting via binary64 multiplication (as
`Math.floor(thresholdEth * 1e18)` does) does not equal exact scaling by
`10^18`, and the two comparisons disagree at the wei value `10^38 - 1`. -/
theorem claim9_float_conversion_counterexample :
    isRepresentableB64 (10 ^ 20) ∧
    jsThresholdWei (10 ^ 20) ≠ 10 ^ 20 * 10 ^ 18 ∧
    highValueCheckCode (10 ^ 20) (10 ^ 38 - 1) = true ∧
    highValueCheckSpec (10 ^ 20) (10 ^ 38 - 1) = false :=
  ⟨⟨95367431640625, 20, by decide, by decide⟩, by decide, by decide, by decide⟩

/-- C9, amended: the wei comparison itself is big-integer; the threshold
conversion agrees with exact scaling by `10^18` exactly when the scaled
threshold is representable in binary64 (which holds for the default 0.25
but fails for large thresholds such as `10^20`). -/
theorem claim9_exact_when_scaled_representable (t wei : Nat)
    (h : isRepresentableB64 (t * 10 ^ 18)) :
    highValueCheckCode t wei = highValueCheckSpec t wei := by
  unfold highValueCheckCode highValueCheckSpec jsThresholdWei
  rw [roundDoubleNat_of_representable _ h]

/-- Witness for the amended C9 at a 1-whole-unit threshold
(`10^18 = 3814697265625 · 2^18` is representable). -/
theorem claim9_exact_when_scaled_representable_witness :
    highValueCheckCode 1 (10 ^ 18) = highValueCheckSpec 1 (10 ^ 18) :=
  claim9_exact_when_scaled_representable 1 (10 ^ 18)
    ⟨3814697265625, 18, by decide, by decide⟩

/-! ### C10 — the unknown-method tag and template -/

/-- Membership in a conditional singleton chunk of `detectTags`. -/
theorem mem_if_singleton {α : Type} (x y : α) (c : Prop) [Decidable c] :
    (x ∈ if c then [y] else []) ↔ c ∧ x = y := by
  split <;> simp_all

/-- Membership in the first, two-armed chunk of `detectTags`. -/
theorem mem_if_pair {α : Type} (x y₁ y₂ : α) (c₁ c₂ : Prop) [Decidable c₁] [Decidable c₂] :
    (x ∈ if c₁ then [y₁] else if c₂ then [y₂] else []) ↔
      (c₁ ∧ x = y₁) ∨ (¬ c₁ ∧ c₂ ∧ x = y₂) := by
  split_ifs <;> simp_all

/-- If the unknown-method tag was not derived, the selected template is
never the "Unrecognized contract call" one: every other template fixes a
different title. -/
theorem title_ne_of_no_unknown_tag (input : WarningInput)
    (h : EvidenceTag.UNKNOWN_METHOD ∉ detectTags input) :
    (selectTemplate (detectTags input) input).title ≠ "Unrecognized contract call".toList := by
  unfold selectTemplate
  split_ifs with h1 h2 h3 h4 h5 h6 h7 h8 h9
  · exact (by decide : ("High-risk address flagged".toList : List Char) ≠
      "Unrecognized contract call".toList)
  · exact (by decide : ("Unlimited approval request".toList : List Char) ≠
      "Unrecognized contract call".toList)
  · exact (by decide : ("Signature-based approval".toList : List Char) ≠
      "Unrecognized contract call".toList)
  · exact (by decide : ("Transaction may not succeed".toList : List Char) ≠
      "Unrecognized contract call".toList)
  · exact (by decide : ("Large transfer detected".toList : List Char) ≠
      "Unrecognized contract call".toList)
  · exact (by decide : ("Batched transaction detected".toList : List Char) ≠
      "Unrecognized contract call".toList)
  · exact absurd (by simpa using h7) h
  · exact (by decide : ("Token approval request".toList : List Char) ≠
      "Unrecognized contract call".toList)
  · exact (by decide : ("Direct transfer detected".toList : List Char) ≠
      "Unrecognized contract call".toList)
  · exact (by decide : ("No elevated risk detected".toList : List Char) ≠
      "Unrecognized contract call".toList)

/-- C10: the `UNKNOWN_METHOD` tag is derived exactly when the method is
unknown and there is no revert, no approval, no multicall and no permit;
consequently an unknown-method input that reverted or carries any of those
signals never selects the "Unrecognized contract call" template.  (The
hypothesis excludes an empty-string method name, which the registry never
produces; JavaScript falsiness would treat it like `null`.) -/
theorem claim10_unknown_method_tag (input : WarningInput)
    (hne : input.signals.knownMethod ≠ some []) :
    (EvidenceTag.UNKNOWN_METHOD ∈ detectTags input ↔
      (input.signals.knownMethod = none ∧ input.signals.reverted = false ∧
       input.signals.approvals = [] ∧ input.signals.isMulticall = false ∧
       input.signals.isPermit = false)) ∧
    (input.signals.knownMethod = none →
      (input.signals.reverted = true ∨ input.signals.approvals ≠ [] ∨
       input.signals.isMulticall = true ∨ input.signals.isPermit = true) →
      (selectTemplate (detectTags input) input).title ≠
        "Unrecognized contract call".toList) := by
  have hiff : EvidenceTag.UNKNOWN_METHOD ∈ detectTags input ↔
      (input.signals.knownMethod = none ∧ input.signals.reverted = false ∧
       input.signals.approvals = [] ∧ input.signals.isMulticall = false ∧
       input.signals.isPermit = false) := by
    unfold detectTags
    simp [List.mem_append, mem_if_singleton, mem_if_pair]
    intro _ _ _ _ hk
    exact absurd hk hne
  refine ⟨hiff, ?_⟩
  intro hkm hdis
  apply title_ne_of_no_unknown_tag
  rw [hiff]
  rintro ⟨-, hrev, hap, hmc, hp⟩
  rcases hdis with hd | hd | hd | hd <;> simp_all

/-- Witness for C10 at a reverted unknown-method input: the revert
template is selected instead. -/
theorem claim10_unknown_method_tag_witness :
    (selectTemplate
      (detectTags
        { verdict := Verdict.WARNING
        , confidence := 70
        , signals :=
          { unlimitedApproval := false, approvals := [], spenderIsContract := none
          , knownMethod := none, highValueNativeTransfer := false
          , reverted := true, revertReason := none
          , isPermit := false, isMulticall := false }
        , evidence := none })
      { verdict := Verdict.WARNING
      , confidence := 70
      , signals :=
        { unlimitedApproval := false, approvals := [], spenderIsContract := none
        , knownMethod := none, highValueNativeTransfer := false
        , reverted := true, revertReason := none
        , isPermit := false, isMulticall := false }
      , evidence := none }).title ≠ "Unrecognized contract call".toList :=
  (claim10_unknown_method_tag
    { verdict := Verdict.WARNING
    , confidence := 70
    , signals :=
      { unlimitedApproval := false, approvals := [], spenderIsContract := none
      , knownMethod := none, highValueNativeTransfer := false
      , reverted := true, revertReason := none
      , isPermit := false, isMulticall := false }
    , evidence := none } (by simp)).2 rfl (Or.inl rfl)

end CryptoGuardian
